import Mathlib

/-!
Verification development for the QuantScreen scoring-and-orchestration
pipeline (backend/app).  Python floats are modelled as `ℚ`, Python's
`Optional[float]` as `Option ℚ`, and code that can raise an exception as
`Except String`.  Each definition is a shallow embedding of the function of
the same (snake_case) name in the source; presentation-only outputs
(rationale text, signal dictionaries, interpretation strings that no claim
mentions) are carried only where a claim depends on them.
-/

namespace QuantScreen

/-- Python truthiness of an `Optional[float]`: `None` and `0.0` are falsy. -/
def truthyNum : Option ℚ → Bool
  | none => false
  | some v => v ≠ 0

/-- Python `x or d` for `x : Optional[float]` and a float default `d`:
the default is used when `x` is `None` or `0.0`. -/
def pyOr (x : Option ℚ) (d : ℚ) : ℚ :=
  match x with
  | none => d
  | some v => if v = 0 then d else v

/-- Round-half-even on a rational, the idealisation of Python's `round`
applied to the integer scale. -/
def rhe (x : ℚ) : ℤ :=
  let f := ⌊x⌋
  let r := x - (f : ℚ)
  if r < 1 / 2 then f
  else if 1 / 2 < r then f + 1
  else if f % 2 = 0 then f else f + 1

/-- Python `round(x, n)` (banker's rounding to `n` decimal places). -/
def roundTo (x : ℚ) (n : ℕ) : ℚ := (rhe (x * 10 ^ n) : ℚ) / 10 ^ n

/-- A string-keyed metrics dictionary.  A Python dict maps keys to values
that may themselves be `None`; `mget` collapses "key absent" and "value
`None`" exactly as `dict.get` does. -/
abbrev Metrics := List (String × Option ℚ)

/-- `m.get(k)` on a metrics dictionary. -/
def mget (m : Metrics) (k : String) : Option ℚ :=
  match m.find? (fun p => p.1 == k) with
  | some p => p.2
  | none => none

/-- `formulas.FundamentalData`: all fields optional, defaulting to absent. -/
structure FundamentalData where
  revenue : Option ℚ := none
  cost_of_revenue : Option ℚ := none
  gross_profit : Option ℚ := none
  operating_income : Option ℚ := none
  ebit : Option ℚ := none
  ebitda : Option ℚ := none
  net_income : Option ℚ := none
  eps : Option ℚ := none
  sga_expense : Option ℚ := none
  depreciation : Option ℚ := none
  total_assets : Option ℚ := none
  current_assets : Option ℚ := none
  total_liabilities : Option ℚ := none
  current_liabilities : Option ℚ := none
  total_debt : Option ℚ := none
  long_term_debt : Option ℚ := none
  shareholders_equity : Option ℚ := none
  retained_earnings : Option ℚ := none
  cash_and_equivalents : Option ℚ := none
  net_receivables : Option ℚ := none
  inventory : Option ℚ := none
  property_plant_equipment : Option ℚ := none
  intangible_assets : Option ℚ := none
  operating_cash_flow : Option ℚ := none
  capital_expenditures : Option ℚ := none
  free_cash_flow : Option ℚ := none
  dividends_paid : Option ℚ := none
  shares_outstanding : Option ℤ := none
  market_cap : Option ℚ := none
  stock_price : Option ℚ := none
  revenue_prior : Option ℚ := none
  gross_profit_prior : Option ℚ := none
  net_income_prior : Option ℚ := none
  total_assets_prior : Option ℚ := none
  current_assets_prior : Option ℚ := none
  current_liabilities_prior : Option ℚ := none
  long_term_debt_prior : Option ℚ := none
  shares_outstanding_prior : Option ℤ := none
  net_receivables_prior : Option ℚ := none
  sga_expense_prior : Option ℚ := none
  depreciation_prior : Option ℚ := none
  property_plant_equipment_prior : Option ℚ := none
  cash_and_equivalents_prior : Option ℚ := none
deriving DecidableEq

/-- `formulas.safe_divide`: `None` when an operand is absent or the
denominator is zero. -/
def safe_divide (numerator denominator : Option ℚ) : Option ℚ :=
  match numerator, denominator with
  | none, _ => none
  | _, none => none
  | some a, some b => if b = 0 then none else some (a / b)

/-- `MagicFormula.calculate_earnings_yield`. -/
def calculate_earnings_yield (data : FundamentalData) : Option ℚ :=
  match data.ebit, data.market_cap with
  | some ebit, some mcap =>
    let total_debt := pyOr data.total_debt 0
    let cash := pyOr data.cash_and_equivalents 0
    let enterprise_value := mcap + total_debt - cash
    if enterprise_value ≤ 0 then none else some (ebit / enterprise_value)
  | _, _ => none

/-- `MagicFormula.calculate_return_on_capital`.  The source's `goodwill`
branch is dead code (`FundamentalData` has no such attribute), so the
intangibles term is `intangible_assets or 0` alone. -/
def calculate_return_on_capital (data : FundamentalData) : Option ℚ :=
  match data.ebit with
  | none => none
  | some ebit =>
    let current_assets := pyOr data.current_assets 0
    let current_liabilities := pyOr data.current_liabilities 0
    let total_assets := pyOr data.total_assets 0
    let intangibles := pyOr data.intangible_assets 0
    let net_working_capital := current_assets - current_liabilities
    let net_fixed_assets := total_assets - current_assets - intangibles
    let invested_capital := net_working_capital + net_fixed_assets
    if invested_capital ≤ 0 then none else some (ebit / invested_capital)

/-- `AcquirersMultiple.calculate`. -/
def acquirers_multiple (data : FundamentalData) : Option ℚ :=
  match data.ebit, data.market_cap with
  | some ebit, some mcap =>
    if ebit ≤ 0 then none
    else
      let total_debt := pyOr data.total_debt 0
      let cash := pyOr data.cash_and_equivalents 0
      let enterprise_value := mcap + total_debt - cash
      if enterprise_value ≤ 0 then none else some (enterprise_value / ebit)
  | _, _ => none

/-- The nine binary tests of `PiotroskiFScore.calculate`, each 0 or 1. -/
structure FScoreBreakdown where
  roa_positive : ℕ
  cfo_positive : ℕ
  roa_improving : ℕ
  accruals_quality : ℕ
  leverage_decreasing : ℕ
  liquidity_improving : ℕ
  no_dilution : ℕ
  gross_margin_improving : ℕ
  asset_turnover_improving : ℕ
deriving DecidableEq

structure FScoreResult where
  f_score : ℕ
  breakdown : FScoreBreakdown
  interpretation : String
deriving DecidableEq

/-- F-Score test 1: `ROA > 0`. -/
def fs_roa_positive (data : FundamentalData) : ℕ :=
  match safe_divide data.net_income data.total_assets with
  | some v => if 0 < v then 1 else 0
  | none => 0

/-- F-Score test 2: `Operating Cash Flow > 0`. -/
def fs_cfo_positive (data : FundamentalData) : ℕ :=
  match data.operating_cash_flow with
  | some v => if 0 < v then 1 else 0
  | none => 0

/-- F-Score test 3: ROA improving; `0` when either period's ROA is
undefined. -/
def fs_roa_improving (data : FundamentalData) : ℕ :=
  match safe_divide data.net_income data.total_assets,
      safe_divide data.net_income_prior data.total_assets_prior with
  | some r, some rp => if rp < r then 1 else 0
  | _, _ => 0

/-- F-Score test 4: `CFO > Net Income`. -/
def fs_accruals_quality (data : FundamentalData) : ℕ :=
  match data.operating_cash_flow, data.net_income with
  | some cfo, some ni => if ni < cfo then 1 else 0
  | _, _ => 0

/-- F-Score test 5: leverage decreasing; `0` when a ratio is undefined. -/
def fs_leverage_decreasing (data : FundamentalData) : ℕ :=
  match safe_divide data.long_term_debt data.total_assets,
      safe_divide data.long_term_debt_prior data.total_assets_prior with
  | some l, some lp => if l < lp then 1 else 0
  | _, _ => 0

/-- F-Score test 6: current ratio improving; `0` when undefined. -/
def fs_liquidity_improving (data : FundamentalData) : ℕ :=
  match safe_divide data.current_assets data.current_liabilities,
      safe_divide data.current_assets_prior data.current_liabilities_prior with
  | some c, some cp => if cp < c then 1 else 0
  | _, _ => 0

/-- F-Score test 7: no share dilution; `0` when either count is absent. -/
def fs_no_dilution (data : FundamentalData) : ℕ :=
  match data.shares_outstanding, data.shares_outstanding_prior with
  | some so, some sop => if so ≤ sop then 1 else 0
  | _, _ => 0

/-- F-Score test 8: gross margin improving; `0` when undefined. -/
def fs_gross_margin_improving (data : FundamentalData) : ℕ :=
  match safe_divide data.gross_profit data.revenue,
      safe_divide data.gross_profit_prior data.revenue_prior with
  | some g, some gp => if gp < g then 1 else 0
  | _, _ => 0

/-- F-Score test 9: asset turnover improving; `0` when undefined. -/
def fs_asset_turnover_improving (data : FundamentalData) : ℕ :=
  match safe_divide data.revenue data.total_assets,
      safe_divide data.revenue_prior data.total_assets_prior with
  | some a, some ap => if ap < a then 1 else 0
  | _, _ => 0

/-- `PiotroskiFScore.calculate`: the nine tests above summed. -/
def piotroskiFScore (data : FundamentalData) : FScoreResult :=
  let total := fs_roa_positive data + fs_cfo_positive data + fs_roa_improving data +
    fs_accruals_quality data + fs_leverage_decreasing data +
    fs_liquidity_improving data + fs_no_dilution data +
    fs_gross_margin_improving data + fs_asset_turnover_improving data
  { f_score := total
    breakdown :=
      { roa_positive := fs_roa_positive data
        cfo_positive := fs_cfo_positive data
        roa_improving := fs_roa_improving data
        accruals_quality := fs_accruals_quality data
        leverage_decreasing := fs_leverage_decreasing data
        liquidity_improving := fs_liquidity_improving data
        no_dilution := fs_no_dilution data
        gross_margin_improving := fs_gross_margin_improving data
        asset_turnover_improving := fs_asset_turnover_improving data }
    interpretation :=
      if 8 ≤ total then "Strong" else if 5 ≤ total then "Moderate" else "Weak" }

structure ZScoreResult where
  z_score : ℚ
  compA : ℚ
  compB : ℚ
  compC : ℚ
  compD : ℚ
  compE : ℚ
  interpretation : String
deriving DecidableEq

/-- `AltmanZScore.calculate`. -/
def altmanZScore (data : FundamentalData) : Option ZScoreResult :=
  match data.total_assets with
  | none => none
  | some ta =>
    if ta ≤ 0 then none
    else
      let working_capital := pyOr data.current_assets 0 - pyOr data.current_liabilities 0
      let a := working_capital / ta
      let b := pyOr (safe_divide data.retained_earnings (some ta)) 0
      let c := pyOr (safe_divide data.ebit (some ta)) 0
      let d :=
        match data.total_liabilities with
        | none => 0
        | some tl =>
          if tl ≤ 0 then 0 else pyOr (safe_divide data.market_cap (some tl)) 0
      let e := pyOr (safe_divide data.revenue (some ta)) 0
      let z_score := 1.2 * a + 1.4 * b + 3.3 * c + 0.6 * d + 1.0 * e
      some
        { z_score := roundTo z_score 2
          compA := a, compB := b, compC := c, compD := d, compE := e
          interpretation :=
            if 2.99 < z_score then "Safe"
            else if 1.81 < z_score then "Grey Zone"
            else "Distress" }

structure MScoreResult where
  m_score : ℚ
  dsri : ℚ
  gmi : ℚ
  aqi : ℚ
  sgi : ℚ
  depi : ℚ
  sgai : ℚ
  tata : ℚ
  lvgi : ℚ
  is_red_flag : Bool
deriving DecidableEq

/-- DSRI before the neutral default: the ratio of
receivables-to-sales indices; `none` when it cannot be computed. -/
def dsriRaw (data : FundamentalData) : Option ℚ :=
  safe_divide (safe_divide data.net_receivables data.revenue)
    (safe_divide data.net_receivables_prior data.revenue_prior)

/-- GMI before the neutral default. -/
def gmiRaw (data : FundamentalData) : Option ℚ :=
  safe_divide (safe_divide data.gross_profit_prior data.revenue_prior)
    (safe_divide data.gross_profit data.revenue)

/-- The `1 - (CA + PPE) / TA` asset-quality term (0 when `ta ≤ 0`). -/
def aqTerm (ca ppe ta : ℚ) : ℚ := if 0 < ta then 1 - (ca + ppe) / ta else 0

/-- AQI before the neutral default. -/
def aqiRaw (data : FundamentalData) : Option ℚ :=
  safe_divide
    (some (aqTerm (pyOr data.current_assets 0) (pyOr data.property_plant_equipment 0)
      (pyOr data.total_assets 1)))
    (some (aqTerm (pyOr data.current_assets_prior 0)
      (pyOr data.property_plant_equipment_prior 0) (pyOr data.total_assets_prior 1)))

/-- The DEPI depreciation rate
`safe_divide(dep, dep + ppe) if ppe else None`: Python evaluates
`dep + ppe` before `safe_divide` can guard it, so a truthy `ppe` with an
absent depreciation raises `TypeError` — modelled as `Except.error`. -/
def depr_rate (dep : Option ℚ) (ppe : ℚ) : Except String (Option ℚ) :=
  if ppe ≠ 0 then
    match dep with
    | none => .error "TypeError: unsupported operand type(s) for +"
    | some v => .ok (safe_divide (some v) (some (v + ppe)))
  else .ok none

/-- SGAI before the neutral default. -/
def sgaiRaw (data : FundamentalData) : Option ℚ :=
  safe_divide (safe_divide data.sga_expense data.revenue)
    (safe_divide data.sga_expense_prior data.revenue_prior)

/-- LVGI before the neutral default. -/
def lvgiRaw (data : FundamentalData) : Option ℚ :=
  safe_divide
    (safe_divide (some (pyOr data.long_term_debt 0 + pyOr data.current_liabilities 0))
      (some (pyOr data.total_assets 1)))
    (safe_divide
      (some (pyOr data.long_term_debt_prior 0 + pyOr data.current_liabilities_prior 0))
      (some (pyOr data.total_assets_prior 1)))

/-- `BeneishMScore.calculate`.  `Except`-valued because the DEPI lines can
raise (see `depr_rate`). -/
def beneishMScore (data : FundamentalData) : Except String (Option MScoreResult) :=
  match data.revenue, data.revenue_prior with
  | some rev, some revp =>
    if rev ≤ 0 ∨ revp ≤ 0 then .ok none
    else
      let dsri := pyOr (dsriRaw data) 1.0
      let gmi := pyOr (gmiRaw data) 1.0
      let aqi := pyOr (aqiRaw data) 1.0
      let sgi := rev / revp
      match depr_rate data.depreciation (pyOr data.property_plant_equipment 0),
          depr_rate data.depreciation_prior (pyOr data.property_plant_equipment_prior 0) with
      | .error e, _ => .error e
      | .ok _, .error e => .error e
      | .ok dr, .ok drp =>
        let depi := pyOr (safe_divide drp dr) 1.0
        let sgai := pyOr (sgaiRaw data) 1.0
        let ta := pyOr data.total_assets 1
        let tata :=
          if 0 < ta then
            (pyOr data.net_income 0 - pyOr data.operating_cash_flow 0) / ta
          else 0
        let lvgi := pyOr (lvgiRaw data) 1.0
        let m_score :=
          -4.84 + 0.92 * dsri + 0.528 * gmi + 0.404 * aqi + 0.892 * sgi +
            0.115 * depi - 0.172 * sgai + 4.679 * tata - 0.327 * lvgi
        .ok (some
          { m_score := roundTo m_score 2
            dsri := dsri, gmi := gmi, aqi := aqi, sgi := sgi
            depi := depi, sgai := sgai, tata := tata, lvgi := lvgi
            is_red_flag := decide (-1.78 < m_score) })
  | _, _ => .ok none

structure SloanResult where
  accrual_ratio : ℚ
  accrual_ratio_pct : ℚ
  quality : String
  is_red_flag : Bool
deriving DecidableEq

/-- `SloanAccrualRatio.calculate`. -/
def sloanAccrualRatio (data : FundamentalData) : Option SloanResult :=
  match data.net_income, data.operating_cash_flow with
  | some ni, some cfo =>
    let ta_current := pyOr data.total_assets 0
    let ta_prior := pyOr data.total_assets_prior ta_current
    let avg_total_assets := (ta_current + ta_prior) / 2
    if avg_total_assets ≤ 0 then none
    else
      let accrual_ratio := (ni - cfo) / avg_total_assets
      some
        { accrual_ratio := roundTo accrual_ratio 4
          accrual_ratio_pct := roundTo (accrual_ratio * 100) 2
          quality :=
            if accrual_ratio < -0.10 then "High"
            else if 0.10 < accrual_ratio then "Low"
            else "Normal"
          is_red_flag := decide (0.10 < accrual_ratio) }
  | _, _ => none

/-- The aggregate of `FormulaEngine.calculate_all` (the dict of the six
formula results).  `Except`-valued because `BeneishMScore.calculate` can
raise. -/
structure AllFormulas where
  magic_earnings_yield : Option ℚ
  magic_return_on_capital : Option ℚ
  acquirers_multiple : Option ℚ
  piotroski : FScoreResult
  altman_z : Option ZScoreResult
  beneish_m : Option MScoreResult
  sloan_accrual : Option SloanResult
deriving DecidableEq

/-- `FormulaEngine.calculate_all`. -/
def calculate_all (data : FundamentalData) : Except String AllFormulas :=
  match beneishMScore data with
  | .error e => .error e
  | .ok bm =>
    .ok
      { magic_earnings_yield := calculate_earnings_yield data
        magic_return_on_capital := calculate_return_on_capital data
        acquirers_multiple := acquirers_multiple data
        piotroski := piotroskiFScore data
        altman_z := altmanZScore data
        beneish_m := bm
        sloan_accrual := sloanAccrualRatio data }

/-- `FormulaEngine.calculate_valuation_ratios`.  Each `if a and b:` guard
is Python truthiness on optional floats; a key is present-with-`None` when
the outer guard passes but the positivity condition fails. -/
def calculate_valuation_ratios (data : FundamentalData) : Metrics :=
  (if truthyNum data.stock_price ∧ truthyNum data.eps then
    [("pe_ratio",
      if 0 < pyOr data.eps 0 then
        some (roundTo (pyOr data.stock_price 0 / pyOr data.eps 0) 2)
      else none)]
  else []) ++
  (if truthyNum data.market_cap ∧ truthyNum data.shareholders_equity then
    [("pb_ratio",
      if 0 < pyOr data.shareholders_equity 0 then
        some (roundTo (pyOr data.market_cap 0 / pyOr data.shareholders_equity 0) 2)
      else none)]
  else []) ++
  (if truthyNum data.market_cap ∧ truthyNum data.revenue then
    [("ps_ratio",
      if 0 < pyOr data.revenue 0 then
        some (roundTo (pyOr data.market_cap 0 / pyOr data.revenue 0) 2)
      else none)]
  else []) ++
  (if truthyNum data.market_cap ∧ truthyNum data.ebitda then
    [("ev_ebitda",
      if 0 < pyOr data.ebitda 0 then
        some (roundTo
          ((pyOr data.market_cap 0 + pyOr data.total_debt 0 -
            pyOr data.cash_and_equivalents 0) / pyOr data.ebitda 0) 2)
      else none)]
  else []) ++
  (if truthyNum data.net_income ∧ truthyNum data.shareholders_equity then
    [("roe",
      if 0 < pyOr data.shareholders_equity 0 then
        some (roundTo (pyOr data.net_income 0 / pyOr data.shareholders_equity 0 * 100) 2)
      else none)]
  else []) ++
  (if truthyNum data.net_income ∧ truthyNum data.total_assets then
    [("roa",
      if 0 < pyOr data.total_assets 0 then
        some (roundTo (pyOr data.net_income 0 / pyOr data.total_assets 0 * 100) 2)
      else none)]
  else []) ++
  (if truthyNum data.gross_profit ∧ truthyNum data.revenue then
    [("gross_margin",
      if 0 < pyOr data.revenue 0 then
        some (roundTo (pyOr data.gross_profit 0 / pyOr data.revenue 0 * 100) 2)
      else none)]
  else []) ++
  (if truthyNum data.net_income ∧ truthyNum data.revenue then
    [("net_margin",
      if 0 < pyOr data.revenue 0 then
        some (roundTo (pyOr data.net_income 0 / pyOr data.revenue 0 * 100) 2)
      else none)]
  else []) ++
  (if truthyNum data.total_debt ∧ truthyNum data.shareholders_equity then
    [("debt_to_equity",
      if 0 < pyOr data.shareholders_equity 0 then
        some (roundTo (pyOr data.total_debt 0 / pyOr data.shareholders_equity 0) 2)
      else none)]
  else []) ++
  (if truthyNum data.current_assets ∧ truthyNum data.current_liabilities then
    [("current_ratio",
      if 0 < pyOr data.current_liabilities 0 then
        some (roundTo (pyOr data.current_assets 0 / pyOr data.current_liabilities 0) 2)
      else none)]
  else [])

/-! ## Technical indicator library (`services/technical.py`) -/

/-- Consecutive differences `prices[i] - prices[i-1]`. -/
def diffs : List ℚ → List ℚ
  | a :: b :: rest => (b - a) :: diffs (b :: rest)
  | _ => []

/-- Python `l[-n:]` for `n > 0`: the last `n` elements. -/
def takeLast (l : List ℚ) (n : ℕ) : List ℚ := l.drop (l.length - n)

/-- `technical.calculate_rsi`. -/
def calculate_rsi (prices : List ℚ) (period : ℕ := 14) : Option ℚ :=
  if prices.length < period + 1 then none
  else
    let deltas := diffs prices
    let recent := takeLast deltas period
    let gains := recent.map (fun d => if 0 < d then d else 0)
    let losses := recent.map (fun d => if d < 0 then -d else 0)
    let avg_gain := gains.sum / period
    let avg_loss := losses.sum / period
    if avg_loss = 0 then some 100
    else
      let rs := avg_gain / avg_loss
      some (roundTo (100 - 100 / (1 + rs)) 2)

/-- One exponential smoothing step of `technical._ema`. -/
def emaStep (multiplier prev val : ℚ) : ℚ := (val - prev) * multiplier + prev

/-- `technical._ema`: seed with the simple average of the first `period`
values, then smooth. -/
def ema (values : List ℚ) (period : ℕ) : List ℚ :=
  if values.length < period then []
  else
    let multiplier : ℚ := 2 / ((period : ℚ) + 1)
    let seed := (values.take period).sum / (period : ℚ)
    ((values.drop period).foldl
      (fun acc val => (acc.1 ++ [emaStep multiplier acc.2 val], emaStep multiplier acc.2 val))
      ([seed], seed)).1

structure MacdResult where
  macd_line : ℚ
  signal_line : ℚ
  histogram : ℚ
  bullish : Bool
deriving DecidableEq

/-- `technical.calculate_macd`. -/
def calculate_macd (prices : List ℚ) : Option MacdResult :=
  if prices.length < 35 then none
  else
    let ema12 := ema prices 12
    let ema26 := ema prices 26
    let offset := ema12.length - ema26.length
    let macd_line := (List.range ema26.length).map
      (fun i => ema12.getD (i + offset) 0 - ema26.getD i 0)
    if macd_line.length < 9 then none
    else
      let signal := ema macd_line 9
      if signal = [] then none
      else
        let histogram := macd_line.getLastD 0 - signal.getLastD 0
        some
          { macd_line := roundTo (macd_line.getLastD 0) 4
            signal_line := roundTo (signal.getLastD 0) 4
            histogram := roundTo histogram 4
            bullish := decide (0 < histogram) }

/-- `technical.calculate_sma`. -/
def calculate_sma (prices : List ℚ) (period : ℕ) : Option ℚ :=
  if prices.length < period then none
  else some (roundTo ((takeLast prices period).sum / (period : ℚ)) 4)

/-- `technical.calculate_atr`.  The source indexes `highs`/`lows` in step
with `closes`; `getD _ 0` mirrors that indexing (callers pass equal-length
series). -/
def calculate_atr (highs lows closes : List ℚ) (period : ℕ := 14) : Option ℚ :=
  if closes.length < period + 1 then none
  else
    let true_ranges := (List.range' 1 (closes.length - 1)).map (fun i =>
      max (highs.getD i 0 - lows.getD i 0)
        (max |highs.getD i 0 - closes.getD (i - 1) 0|
          |lows.getD i 0 - closes.getD (i - 1) 0|))
    if true_ranges.length < period then none
    else some (roundTo ((takeLast true_ranges period).sum / (period : ℚ)) 4)

/-- The dict returned by `technical.find_support_resistance`; a key can be
absent (`none`). -/
structure SRLevels where
  support : Option ℚ
  resistance : Option ℚ
deriving DecidableEq

/-- `technical.find_support_resistance`.  A pivot that is both window
minimum and maximum counts as support only (the source's `elif`). -/
def find_support_resistance (prices : List ℚ) (window : ℕ := 20) : Option SRLevels :=
  if prices.length < window * 2 then none
  else
    let current := prices.getLastD 0
    let pivots := (List.range' window (prices.length - 2 * window)).map
      (fun i => (prices.getD i 0, (prices.drop (i - window)).take (2 * window + 1)))
    let supports := pivots.filterMap
      (fun p => if p.2.min? = some p.1 then some p.1 else none)
    let resistances := pivots.filterMap
      (fun p => if p.2.min? ≠ some p.1 ∧ p.2.max? = some p.1 then some p.1 else none)
    let support_levels := supports.filter (fun s => s < current)
    let resistance_levels := resistances.filter (fun r => current < r)
    match support_levels.max?, resistance_levels.min? with
    | none, none => none
    | s, r => some { support := s.map (roundTo · 4), resistance := r.map (roundTo · 4) }

/-! ## Strategy composer (`services/strategy_engine.py`), swing timeframe -/

/-- The fields of the `StockStrategy` record that `_build_swing_strategy`
constructs (rationale text and the signals dict are presentation-only). -/
structure SwingStrategy where
  entry_price : ℚ
  stop_loss : ℚ
  take_profit : ℚ
  risk_reward_ratio : ℚ
  confidence : String
deriving DecidableEq

/-- `strategy_engine._build_swing_strategy` (its `metrics` argument is
never read by the swing builder and is omitted here). -/
def buildSwingStrategy (price : ℚ) (closes highs lows : List ℚ) : SwingStrategy :=
  let rsi := calculate_rsi closes 14
  let macd := calculate_macd closes
  let sr := find_support_resistance closes 20
  let atr := calculate_atr highs lows closes 14
  let sma50 := calculate_sma closes 50
  let srSupport : Option ℚ := match sr with | some lv => lv.support | none => none
  let srResistance : Option ℚ := match sr with | some lv => lv.resistance | none => none
  let stop_loss0 : ℚ :=
    if truthyNum srSupport then srSupport.getD 0
    else if truthyNum atr then price - atr.getD 0 * 2
    else price * 0.95
  let risk0 := price - stop_loss0
  let risk := if risk0 ≤ 0 then price * 0.05 else risk0
  let stop_loss := if risk0 ≤ 0 then price - price * 0.05 else stop_loss0
  let take_profit :=
    if truthyNum srResistance then srResistance.getD 0 else price + risk * 2
  let rr_ratio := if 0 < risk then (take_profit - price) / risk else 0
  let rsiPoints : ℕ :=
    match rsi with
    | some r => if r < 30 then 2 else if r < 45 then 1 else 0
    | none => 0
  let macdPoints : ℕ :=
    match macd with
    | some m => if m.bullish then 1 else 0
    | none => 0
  let smaPoints : ℕ :=
    match sma50 with
    | some s => if s < price then 1 else 0
    | none => 0
  let confidence_points := rsiPoints + macdPoints + smaPoints
  { entry_price := roundTo price 4
    stop_loss := roundTo stop_loss 4
    take_profit := roundTo take_profit 4
    risk_reward_ratio := roundTo rr_ratio 2
    confidence :=
      if 3 ≤ confidence_points then "high"
      else if 2 ≤ confidence_points then "medium"
      else "low" }

/-! ## Screening engine (`api/routes/screener.py` and
`services/daily_engine.py`) -/

/-- One `(metric, operator, threshold)` predicate of a screen. -/
structure ScreenFilter where
  metric : String
  operator : String
  value : ℚ
deriving DecidableEq

/-- `ScreenerRequest` (the fields the execution paths read). -/
structure ScreenerRequest where
  filters : List ScreenFilter
  sort_by : String
  sort_order : String
  limit : ℕ
  exclude_sectors : List String
  min_market_cap : Option ℚ
  max_market_cap : Option ℚ
deriving DecidableEq

/-- A row of the `companies` table (the columns the screener reads).
Boolean metric values (`m_score_flag`) are stored as 0 / 1, matching
Python's `False == 0`. -/
structure CompanyRow where
  ticker : String
  name : String := ""
  sector : Option String := none
  market_cap : Option ℚ := none
  is_active : Bool := true
  is_etf : Bool := false
deriving DecidableEq

/-- A stored `DailyPick` as the cache replay reads it: ticker plus the
serialized metrics snapshot. -/
structure CachedPick where
  ticker : String
  metrics : Metrics
deriving DecidableEq

/-- A `ScreenerResult` row. -/
structure ScreenerResult where
  ticker : String
  name : String
  sector : Option String
  market_cap : Option ℚ
  metrics : Metrics
  rank : ℕ
deriving DecidableEq

/-- `screener._apply_filters`: fail-closed on a missing metric; an
unrecognized operator lets the candidate through (no branch fires). -/
def apply_filters (m : Metrics) (filters : List ScreenFilter) : Bool :=
  filters.all fun f =>
    match mget m f.metric with
    | none => false
    | some v =>
      if f.operator = ">" then decide (f.value < v)
      else if f.operator = "<" then decide (v < f.value)
      else if f.operator = ">=" then decide (f.value ≤ v)
      else if f.operator = "<=" then decide (v ≤ f.value)
      else if f.operator = "==" then decide (v = f.value)
      else true

/-- `request.exclude_sectors and company.sector in request.exclude_sectors`
(a `None` sector is never `in` the list). -/
def sectorExcluded (sector : Option String) (excl : List String) : Bool :=
  !excl.isEmpty &&
    (match sector with | some s => excl.contains s | none => false)

/-- `min_cap and (company.market_cap or 0) < min_cap`. -/
def belowMin (cap minC : Option ℚ) : Bool :=
  match minC with
  | none => false
  | some v => if v = 0 then false else decide (pyOr cap 0 < v)

/-- `request.max_market_cap and (company.market_cap or 0) > max_cap`. -/
def aboveMax (cap maxC : Option ℚ) : Bool :=
  match maxC with
  | none => false
  | some v => if v = 0 then false else decide (v < pyOr cap 0)

/-- The sort key of both screener paths:
`(r.metrics.get(sort_key) or r.market_cap)` then `0` for `None`. -/
def getSortValue (sortKey : String) (r : ScreenerResult) : ℚ :=
  match mget r.metrics sortKey with
  | some v => if v = 0 then r.market_cap.getD 0 else v
  | none => r.market_cap.getD 0

/-- Python `list.sort(key=…, reverse=…)`: a stable sort, descending when
`sort_order == "desc"`. -/
def sortResults (sort_by sort_order : String) (rs : List ScreenerResult) :
    List ScreenerResult :=
  if sort_order = "desc" then
    rs.mergeSort (fun a b => decide (getSortValue sort_by b ≤ getSortValue sort_by a))
  else
    rs.mergeSort (fun a b => decide (getSortValue sort_by a ≤ getSortValue sort_by b))

/-- `for i, result in enumerate(results): result.rank = i + 1`. -/
def assignRanks (rs : List ScreenerResult) : List ScreenerResult :=
  rs.enum.map fun p => { p.2 with rank := p.1 + 1 }

/-- The filtering loop of `screener._run_screen_from_cache`: walk today's
picks in order, skip tickers already seen (cross-screen dedup at replay),
join each to its company row, and apply the request's filters.  The seen
set grows only when a pick is accepted, as in the source. -/
def cacheStep (companies : List CompanyRow) (req : ScreenerRequest)
    (acc : List String × List ScreenerResult) (pick : CachedPick) :
    List String × List ScreenerResult :=
  if pick.ticker ∈ acc.1 then acc
  else
    match companies.find? (fun c => c.ticker == pick.ticker) with
    | none => acc
    | some company =>
      if sectorExcluded company.sector req.exclude_sectors then acc
      else if belowMin company.market_cap req.min_market_cap then acc
      else if aboveMax company.market_cap req.max_market_cap then acc
      else if !apply_filters pick.metrics req.filters then acc
      else
        (pick.ticker :: acc.1,
          acc.2 ++ [{ ticker := company.ticker, name := company.name,
                      sector := company.sector, market_cap := company.market_cap,
                      metrics := pick.metrics, rank := 0 }])

def cacheCollect (picks : List CachedPick) (companies : List CompanyRow)
    (req : ScreenerRequest) : List String × List ScreenerResult :=
  picks.foldl (cacheStep companies req) ([], [])

/-- `screener._run_screen_from_cache` (its result list; the `None`
cache-miss return when the run has no picks yields `[]` here and makes the
route fall through to the live path). -/
def run_screen_from_cache (picks : List CachedPick) (companies : List CompanyRow)
    (req : ScreenerRequest) : List ScreenerResult :=
  (assignRanks
    (sortResults req.sort_by req.sort_order (cacheCollect picks companies req).2)).take
    req.limit

/-- The sector clause of the live path's SQL filter
(`~Company.sector.in_(...)` when the exclusion list is truthy): SQL
three-valued logic drops rows whose sector is NULL. -/
def sqlSectorKeep (excl : List String) (sector : Option String) : Bool :=
  if !excl.isEmpty then
    match sector with
    | some s => !excl.contains s
    | none => false
  else true

/-- The `market_cap >= min` SQL clause (NULL compares to nothing). -/
def sqlMinKeep (minC cap : Option ℚ) : Bool :=
  match minC with
  | none => true
  | some v =>
    if v = 0 then true
    else match cap with
      | some w => decide (v ≤ w)
      | none => false

/-- The `market_cap <= max` SQL clause. -/
def sqlMaxKeep (maxC cap : Option ℚ) : Bool :=
  match maxC with
  | none => true
  | some v =>
    if v = 0 then true
    else match cap with
      | some w => decide (w ≤ v)
      | none => false

/-- The SQL-level candidate filter of the live path
(`query.filter(...)`). -/
def sqlKeep (req : ScreenerRequest) (c : CompanyRow) : Bool :=
  sqlSectorKeep req.exclude_sectors c.sector &&
  sqlMinKeep req.min_market_cap c.market_cap &&
  sqlMaxKeep req.max_market_cap c.market_cap

/-- The live fallback branch of `screener.run_screen`.  `metricsOf` is the
per-ticker outcome of `build_fundamental_data` + formula evaluation:
`none` models a failed fetch (or an exception caught by the loop's
`try/except`).  `companies` is the active-company list as the database
returns it, ordered by market cap descending; the query caps it at 200 and
the loop at 50. -/
def run_screen_live (companies : List CompanyRow)
    (metricsOf : String → Option Metrics) (req : ScreenerRequest) :
    List ScreenerResult :=
  let candidates := ((companies.filter (sqlKeep req)).take 200).take 50
  let results := candidates.filterMap fun c =>
    match metricsOf c.ticker with
    | none => none
    | some m =>
      if apply_filters m req.filters then
        some { ticker := c.ticker, name := c.name, sector := c.sector,
               market_cap := c.market_cap, metrics := m, rank := 0 }
      else none
  (assignRanks (sortResults req.sort_by req.sort_order results)).take req.limit

/-! ## Daily engine (`services/daily_engine.py`) -/

/-- One entry of `screener.PRESET_SCREENS` (the fields the daily engine and
preset runner read; `name`/`description` are presentation-only). -/
structure ScreenConfig where
  key : String
  filters : List ScreenFilter := []
  exclude_sectors : List String := []
  min_market_cap : Option ℚ := none
  sort_by : String := "market_cap"
  sort_order : String := "desc"
  limit : ℕ := 50
deriving DecidableEq

/-- `screener.PRESET_SCREENS`, in dict insertion order.  The boolean filter
value `False` of `safe_stocks` is encoded as `0` (`False == 0` in Python). -/
def PRESET_SCREENS : List ScreenConfig :=
  [{ key := "magic_formula"
     filters := []
     exclude_sectors := ["Financial Services", "Utilities"]
     min_market_cap := some 50000000
     sort_by := "magic_formula_rank"
     sort_order := "asc"
     limit := 50 },
   { key := "deep_value"
     filters := [⟨"acquirers_multiple", "<", 8⟩, ⟨"f_score", ">=", 5⟩]
     exclude_sectors := ["Financial Services"]
     min_market_cap := some 100000000
     sort_by := "acquirers_multiple"
     sort_order := "asc"
     limit := 50 },
   { key := "quality_value"
     filters := [⟨"f_score", ">=", 7⟩, ⟨"pe_ratio", "<", 20⟩, ⟨"roe", ">", 15⟩]
     min_market_cap := some 100000000
     sort_by := "f_score"
     sort_order := "desc"
     limit := 50 },
   { key := "safe_stocks"
     filters := [⟨"z_score", ">", 2.99⟩, ⟨"f_score", ">=", 6⟩, ⟨"m_score_flag", "==", 0⟩]
     min_market_cap := some 100000000
     sort_by := "z_score"
     sort_order := "desc"
     limit := 50 },
   { key := "red_flag_watch"
     filters := [⟨"m_score", ">", -1.78⟩]
     min_market_cap := some 500000000
     sort_by := "m_score"
     sort_order := "desc"
     limit := 50 }]

/-- One value of the `all_results` dict built by
`daily_engine._fetch_and_calculate_all`. -/
structure ResultEntry where
  company : CompanyRow
  metrics : Metrics
  is_etf : Bool
deriving DecidableEq

/-- A stored `DailyPick` row as `_generate_daily_picks` creates it
(rationale text omitted). -/
structure DailyPickRow where
  run_id : ℕ
  ticker : String
  screen_name : String
  metrics : Metrics
  rank : ℕ
deriving DecidableEq

/-- The candidate filter of `_generate_daily_picks` for one screen: skip
ETF-tagged results, excluded sectors, sub-floor market caps, and entries
failing the metric predicates (same fail-closed semantics as
`_apply_filters`). -/
def screenCandidates (cfg : ScreenConfig) (results : List ResultEntry) :
    List ResultEntry :=
  results.filter fun e =>
    !e.is_etf &&
    !(match e.company.sector with
      | some s => cfg.exclude_sectors.contains s
      | none => false) &&
    !belowMin e.company.market_cap cfg.min_market_cap &&
    apply_filters e.metrics cfg.filters

/-- `_generate_daily_picks`'s `sort_fn`: the metric value when present
(even 0), else `company.market_cap or 0`. -/
def dailySortVal (sortKey : String) (e : ResultEntry) : ℚ :=
  match mget e.metrics sortKey with
  | some v => v
  | none => pyOr e.company.market_cap 0

/-- One screen's pass of `_generate_daily_picks`: filter, stable-sort by
the configured key, truncate to the cap, store ranks `1..`. -/
def runOneScreen (runId : ℕ) (cfg : ScreenConfig) (results : List ResultEntry) :
    List DailyPickRow :=
  let cands := screenCandidates cfg results
  let sorted :=
    if cfg.sort_order = "desc" then
      cands.mergeSort (fun a b =>
        decide (dailySortVal cfg.sort_by b ≤ dailySortVal cfg.sort_by a))
    else
      cands.mergeSort (fun a b =>
        decide (dailySortVal cfg.sort_by a ≤ dailySortVal cfg.sort_by b))
  (sorted.take cfg.limit).enum.map fun p =>
    { run_id := runId, ticker := p.2.company.ticker, screen_name := cfg.key,
      metrics := p.2.metrics, rank := p.1 + 1 }

/-- `daily_engine._generate_daily_picks`: every preset screen except
`red_flag_watch`, in dict order, each over the full results map — with no
cross-screen dedup. -/
def generate_daily_picks (runId : ℕ) (screens : List ScreenConfig)
    (results : List ResultEntry) : List DailyPickRow :=
  (screens.filter (fun cfg => cfg.key ≠ "red_flag_watch")).flatMap
    (fun cfg => runOneScreen runId cfg results)

/-- A quote dict returned by the provider (the keys the ETF branch reads). -/
structure Quote where
  price : Option ℚ := none
  marketCap : Option ℚ := none
  pe : Option ℚ := none
  volume : Option ℚ := none
deriving DecidableEq

/-- `daily_engine._flatten_metrics`: flatten the formula results into the
flat metrics dict, then `update` with the valuation ratios (key sets are
disjoint, so appending preserves dict semantics). -/
def flatten_metrics (f : AllFormulas) (valuation : Metrics) : Metrics :=
  ([("f_score", some (f.piotroski.f_score : ℚ))] ++
   (if truthyNum f.acquirers_multiple then
     [("acquirers_multiple", f.acquirers_multiple)]
   else []) ++
   (match f.altman_z with
    | some z => [("z_score", some z.z_score)]
    | none => []) ++
   (match f.beneish_m with
    | some m =>
      [("m_score", some m.m_score),
       ("m_score_flag", some (if m.is_red_flag then 1 else 0))]
    | none => []) ++
   (match f.sloan_accrual with
    | some s => [("accrual_ratio", some s.accrual_ratio_pct)]
    | none => []) ++
   [("earnings_yield", f.magic_earnings_yield),
    ("return_on_capital", f.magic_return_on_capital)]) ++
  valuation

/-- The per-company body of `_fetch_and_calculate_all.process_one`.
`quoteOf` / `fundOf` are the provider responses (`none` = no data, empty
response, or a timeout).  An exception escaping the formula engine is
caught by the loop's `try/except` and the company is skipped (`none`). -/
def process_one (quoteOf : String → Option Quote)
    (fundOf : String → Option FundamentalData) (company : CompanyRow) :
    Option ResultEntry :=
  if company.is_etf then
    match quoteOf company.ticker with
    | some q =>
      some { company := company, is_etf := true,
             metrics := [("stock_price", q.price), ("market_cap", q.marketCap),
                         ("pe_ratio", q.pe), ("volume", q.volume)] }
    | none => none
  else
    match fundOf company.ticker with
    | some dat =>
      match calculate_all dat with
      | .error _ => none
      | .ok formulas =>
        some { company := company, is_etf := false,
               metrics := flatten_metrics formulas (calculate_valuation_ratios dat) }
    | none => none

/-- `results[company.ticker] = …`: assigning an existing dict key replaces
the value in place, a fresh key appends. -/
def upsert (rs : List ResultEntry) (e : ResultEntry) : List ResultEntry :=
  if rs.any (fun r => r.company.ticker == e.company.ticker) then
    rs.map (fun r => if r.company.ticker == e.company.ticker then e else r)
  else rs ++ [e]

/-- `daily_engine._fetch_and_calculate_all`, with the batching/concurrency
erased (rank assignment happens only after the full set is collected, so
the collected dict is what downstream stages see). -/
def fetch_and_calculate_all (quoteOf : String → Option Quote)
    (fundOf : String → Option FundamentalData) (companies : List CompanyRow) :
    List ResultEntry :=
  companies.foldl
    (fun acc c =>
      match process_one quoteOf fundOf c with
      | some e => upsert acc e
      | none => acc)
    []

/-! ## Orchestrator state (`daily_engine.run_daily_analysis`, the
check-delete-create prefix) -/

/-- A `DailyAnalysisRun` row (dates as naturals). -/
structure RunRow where
  id : ℕ
  run_date : ℕ
  status : String
deriving DecidableEq

/-- A `DailyPick` child row, keyed to its run. -/
structure PickChildRow where
  run_id : ℕ
  ticker : String
deriving DecidableEq

/-- A `StockStrategy` (trade plan) row — keyed by ticker and analysis
date, not by run id. -/
structure StrategyRow where
  ticker : String
  analysis_date : ℕ
  timeframe : String
deriving DecidableEq

/-- The persisted state the orchestrator's trigger phase touches. -/
structure DBState where
  runs : List RunRow
  picks : List PickChildRow
  strategies : List StrategyRow
deriving DecidableEq

/-- Whether a completed run exists for the date. -/
def hasCompletedRun (st : DBState) (today : ℕ) : Bool :=
  st.runs.any fun r => r.run_date == today && r.status == "completed"

/-- The check-delete-create prefix of `run_daily_analysis` (up to the
commit that persists the fresh `running` run): without `force`, an
existing completed run for today makes the call return with no state
change; otherwise every run for today is deleted, the `DailyPick` children
of those runs are deleted first, a fresh `running` run is added — and
`StockStrategy` rows are not touched here. -/
def triggerPhase (st : DBState) (today : ℕ) (force : Bool) (newId : ℕ) : DBState :=
  if !force && hasCompletedRun st today then st
  else
    let old_run_ids := (st.runs.filter (fun r => r.run_date == today)).map (·.id)
    { runs := st.runs.filter (fun r => r.run_date != today) ++
        [{ id := newId, run_date := today, status := "running" }]
      picks := st.picks.filter (fun p => !old_run_ids.contains p.run_id)
      strategies := st.strategies }

/-! ## Shared predicates and helper lemmas -/

/-- All prior-period fields of a snapshot are absent. -/
def priorsAbsent (d : FundamentalData) : Prop :=
  d.revenue_prior = none ∧ d.gross_profit_prior = none ∧
  d.net_income_prior = none ∧ d.total_assets_prior = none ∧
  d.current_assets_prior = none ∧ d.current_liabilities_prior = none ∧
  d.long_term_debt_prior = none ∧ d.shares_outstanding_prior = none ∧
  d.net_receivables_prior = none ∧ d.sga_expense_prior = none ∧
  d.depreciation_prior = none ∧ d.property_plant_equipment_prior = none ∧
  d.cash_and_equivalents_prior = none

instance (d : FundamentalData) : Decidable (priorsAbsent d) := by
  unfold priorsAbsent; infer_instance

lemma diffs_pos : ∀ (l : List ℚ), List.Chain' (· < ·) l → ∀ d ∈ diffs l, 0 < d
  | [], _, _, hd => by simp [diffs] at hd
  | [_], _, _, hd => by simp [diffs] at hd
  | a :: b :: rest, h, d, hd => by
    rw [List.chain'_cons] at h
    rw [diffs, List.mem_cons] at hd
    rcases hd with h1 | h2
    · subst h1; linarith [h.1]
    · exact diffs_pos (b :: rest) h.2 d h2

lemma mem_takeLast {d : ℚ} {l : List ℚ} {n : ℕ} (h : d ∈ takeLast l n) : d ∈ l :=
  (List.drop_sublist _ _).subset h

lemma safe_divide_none_left (x : Option ℚ) : safe_divide none x = none := by
  cases x <;> rfl

lemma safe_divide_none_right (x : Option ℚ) : safe_divide x none = none := by
  cases x <;> rfl

/-! ## Claim C4 -/

/-- A snapshot with positive revenue in both periods, a truthy
`property_plant_equipment` and an absent `depreciation`. -/
def c4Snapshot : FundamentalData :=
  { revenue := some 100, revenue_prior := some 100,
    property_plant_equipment := some 50 }

/-- C4: the claim "no input ever causes a raised exception" fails — the
DEPI computation of `BeneishMScore.calculate` evaluates
`data.depreciation + ppe` with `depreciation = None` and a truthy `ppe`,
which raises `TypeError` instead of yielding an undefined metric. -/
theorem beneish_depi_raises_on_missing_depreciation :
    beneishMScore c4Snapshot =
      .error "TypeError: unsupported operand type(s) for +" := by
  rfl

/-! ## Claim C5 -/

/-- A snapshot with every prior-period field absent, positive total
assets, and present net income and operating cash flow. -/
def c5Snapshot : FundamentalData :=
  { total_assets := some 100, net_income := some 10,
    operating_cash_flow := some 5 }

/-- C5 counterexample: for a snapshot whose prior-period fields are all
absent, `AltmanZScore.calculate` and `SloanAccrualRatio.calculate` both
return a defined result, refuting "all three return undefined". -/
theorem zscore_and_sloan_defined_without_priors :
    priorsAbsent c5Snapshot ∧ (altmanZScore c5Snapshot).isSome = true ∧
      (sloanAccrualRatio c5Snapshot).isSome = true := by
  refine ⟨by decide, by decide, ?_⟩
  unfold sloanAccrualRatio c5Snapshot
  norm_num [pyOr]

/-- C5 amended: with all prior-period fields absent, only
`BeneishMScore.calculate` is necessarily undefined; the Z-Score is defined
whenever current total assets is positive, and the Sloan ratio falls back
to current total assets and is defined whenever net income and operating
cash flow are present and (the `or 0` of) total assets is positive. -/
theorem prior_requirements_amended (d : FundamentalData) (h : priorsAbsent d) :
    beneishMScore d = .ok none ∧
    ((altmanZScore d).isSome = true ↔ ∃ t, d.total_assets = some t ∧ 0 < t) ∧
    ((sloanAccrualRatio d).isSome = true ↔
      d.net_income.isSome = true ∧ d.operating_cash_flow.isSome = true ∧
        0 < pyOr d.total_assets 0) := by
  obtain ⟨h1, h2, h3, h4, h5, h6, h7, h8, h9, h10, h11, h12, h13⟩ := h
  refine ⟨?_, ?_, ?_⟩
  · unfold beneishMScore
    rw [h1]
    cases d.revenue <;> rfl
  · unfold altmanZScore
    cases ht : d.total_assets with
    | none => simp
    | some t =>
      dsimp only
      by_cases hle : t ≤ 0
      · rw [if_pos hle]
        simp
        exact hle
      · rw [if_neg hle]
        simp
        exact not_le.mp hle
  · unfold sloanAccrualRatio
    cases hni : d.net_income with
    | none => simp
    | some ni =>
      cases hcfo : d.operating_cash_flow with
      | none => simp
      | some cfo =>
        rw [h4]
        dsimp only
        have havg : (pyOr d.total_assets 0 + pyOr (none : Option ℚ) (pyOr d.total_assets 0)) / 2 =
            pyOr d.total_assets 0 := by
          unfold pyOr; ring
        rw [havg]
        by_cases hle : pyOr d.total_assets 0 ≤ 0
        · rw [if_pos hle]
          simp
          linarith
        · rw [if_neg hle]
          simp
          exact not_le.mp hle

/-- C5 amended, witnessed at `c5Snapshot`. -/
theorem prior_requirements_amended_witness :
    beneishMScore c5Snapshot = .ok none ∧
    ((altmanZScore c5Snapshot).isSome = true ↔
      ∃ t, c5Snapshot.total_assets = some t ∧ 0 < t) ∧
    ((sloanAccrualRatio c5Snapshot).isSome = true ↔
      c5Snapshot.net_income.isSome = true ∧
        c5Snapshot.operating_cash_flow.isSome = true ∧
        0 < pyOr c5Snapshot.total_assets 0) :=
  prior_requirements_amended c5Snapshot (by decide)

/-! ## Claim C6 -/

lemma fs_roa_positive_le_one (d : FundamentalData) : fs_roa_positive d ≤ 1 := by
  unfold fs_roa_positive
  cases safe_divide d.net_income d.total_assets <;> dsimp only <;>
    first | omega | (split <;> omega)

lemma fs_cfo_positive_le_one (d : FundamentalData) : fs_cfo_positive d ≤ 1 := by
  unfold fs_cfo_positive
  cases d.operating_cash_flow <;> dsimp only <;>
    first | omega | (split <;> omega)

lemma fs_roa_improving_le_one (d : FundamentalData) : fs_roa_improving d ≤ 1 := by
  unfold fs_roa_improving
  cases safe_divide d.net_income d.total_assets <;>
    cases safe_divide d.net_income_prior d.total_assets_prior <;> dsimp only <;>
    first | omega | (split <;> omega)

lemma fs_accruals_quality_le_one (d : FundamentalData) : fs_accruals_quality d ≤ 1 := by
  unfold fs_accruals_quality
  cases d.operating_cash_flow <;> cases d.net_income <;> dsimp only <;>
    first | omega | (split <;> omega)

lemma fs_leverage_decreasing_le_one (d : FundamentalData) :
    fs_leverage_decreasing d ≤ 1 := by
  unfold fs_leverage_decreasing
  cases safe_divide d.long_term_debt d.total_assets <;>
    cases safe_divide d.long_term_debt_prior d.total_assets_prior <;> dsimp only <;>
    first | omega | (split <;> omega)

lemma fs_liquidity_improving_le_one (d : FundamentalData) :
    fs_liquidity_improving d ≤ 1 := by
  unfold fs_liquidity_improving
  cases safe_divide d.current_assets d.current_liabilities <;>
    cases safe_divide d.current_assets_prior d.current_liabilities_prior <;>
    dsimp only <;>
    first | omega | (split <;> omega)

lemma fs_no_dilution_le_one (d : FundamentalData) : fs_no_dilution d ≤ 1 := by
  unfold fs_no_dilution
  cases d.shares_outstanding <;> cases d.shares_outstanding_prior <;> dsimp only <;>
    first | omega | (split <;> omega)

lemma fs_gross_margin_improving_le_one (d : FundamentalData) :
    fs_gross_margin_improving d ≤ 1 := by
  unfold fs_gross_margin_improving
  cases safe_divide d.gross_profit d.revenue <;>
    cases safe_divide d.gross_profit_prior d.revenue_prior <;> dsimp only <;>
    first | omega | (split <;> omega)

lemma fs_asset_turnover_improving_le_one (d : FundamentalData) :
    fs_asset_turnover_improving d ≤ 1 := by
  unfold fs_asset_turnover_improving
  cases safe_divide d.revenue d.total_assets <;>
    cases safe_divide d.revenue_prior d.total_assets_prior <;> dsimp only <;>
    first | omega | (split <;> omega)

/-- C6: the F-Score is an integer in `[0, 9]` (it is a `ℕ` sum of nine 0/1
tests), and on a snapshot with every prior-period field absent each
prior-dependent test contributes exactly 0, so the score is the sum of the
three always-computable tests (ROA > 0, CFO > 0, CFO > net income). -/
theorem fscore_in_range_and_priors_absent (d : FundamentalData) :
    (piotroskiFScore d).f_score ≤ 9 ∧
    (priorsAbsent d →
      (piotroskiFScore d).breakdown.roa_improving = 0 ∧
      (piotroskiFScore d).breakdown.leverage_decreasing = 0 ∧
      (piotroskiFScore d).breakdown.liquidity_improving = 0 ∧
      (piotroskiFScore d).breakdown.no_dilution = 0 ∧
      (piotroskiFScore d).breakdown.gross_margin_improving = 0 ∧
      (piotroskiFScore d).breakdown.asset_turnover_improving = 0 ∧
      (piotroskiFScore d).f_score =
        fs_roa_positive d + fs_cfo_positive d + fs_accruals_quality d) := by
  constructor
  · have := fs_roa_positive_le_one d
    have := fs_cfo_positive_le_one d
    have := fs_roa_improving_le_one d
    have := fs_accruals_quality_le_one d
    have := fs_leverage_decreasing_le_one d
    have := fs_liquidity_improving_le_one d
    have := fs_no_dilution_le_one d
    have := fs_gross_margin_improving_le_one d
    have := fs_asset_turnover_improving_le_one d
    unfold piotroskiFScore
    dsimp only
    omega
  · rintro ⟨h1, h2, h3, h4, h5, h6, h7, h8, h9, h10, h11, h12, h13⟩
    have e3 : fs_roa_improving d = 0 := by
      unfold fs_roa_improving
      rw [h3, safe_divide_none_left]
      cases safe_divide d.net_income d.total_assets <;> rfl
    have e5 : fs_leverage_decreasing d = 0 := by
      unfold fs_leverage_decreasing
      rw [h7, safe_divide_none_left]
      cases safe_divide d.long_term_debt d.total_assets <;> rfl
    have e6 : fs_liquidity_improving d = 0 := by
      unfold fs_liquidity_improving
      rw [h5, safe_divide_none_left]
      cases safe_divide d.current_assets d.current_liabilities <;> rfl
    have e7 : fs_no_dilution d = 0 := by
      unfold fs_no_dilution
      rw [h8]
      cases d.shares_outstanding <;> rfl
    have e8 : fs_gross_margin_improving d = 0 := by
      unfold fs_gross_margin_improving
      rw [h2, safe_divide_none_left]
      cases safe_divide d.gross_profit d.revenue <;> rfl
    have e9 : fs_asset_turnover_improving d = 0 := by
      unfold fs_asset_turnover_improving
      rw [h1, safe_divide_none_left]
      cases safe_divide d.revenue d.total_assets <;> rfl
    unfold piotroskiFScore
    dsimp only
    rw [e3, e5, e6, e7, e8, e9]
    refine ⟨rfl, rfl, rfl, rfl, rfl, rfl, by omega⟩

/-- C6, witnessed at `c6Snapshot` (priors absent, positive net income and
total assets, positive cash flow below net income):
score = 1 + 1 + 0 = 2. -/
def c6Snapshot : FundamentalData :=
  { net_income := some 10, total_assets := some 100,
    operating_cash_flow := some 5 }

/-- C6 witness. -/
theorem fscore_in_range_witness :
    (piotroskiFScore c6Snapshot).f_score ≤ 9 ∧
    ((piotroskiFScore c6Snapshot).breakdown.roa_improving = 0 ∧
     (piotroskiFScore c6Snapshot).breakdown.leverage_decreasing = 0 ∧
     (piotroskiFScore c6Snapshot).breakdown.liquidity_improving = 0 ∧
     (piotroskiFScore c6Snapshot).breakdown.no_dilution = 0 ∧
     (piotroskiFScore c6Snapshot).breakdown.gross_margin_improving = 0 ∧
     (piotroskiFScore c6Snapshot).breakdown.asset_turnover_improving = 0 ∧
     (piotroskiFScore c6Snapshot).f_score =
       fs_roa_positive c6Snapshot + fs_cfo_positive c6Snapshot +
         fs_accruals_quality c6Snapshot) :=
  ⟨(fscore_in_range_and_priors_absent c6Snapshot).1,
    (fscore_in_range_and_priors_absent c6Snapshot).2 (by decide)⟩

/-! ## Claim C9 -/

/-- C9: `calculate_rsi` with the default period 14 is undefined on fewer
than 15 closes; whenever the trailing 14 deltas have no negative entry the
average loss is 0 and the result is exactly 100; in particular every
strictly increasing series of at least 15 closes yields exactly 100. -/
theorem rsi_min_history_and_no_loss_branch (prices : List ℚ) :
    (prices.length < 15 → calculate_rsi prices 14 = none) ∧
    (15 ≤ prices.length → (∀ d ∈ takeLast (diffs prices) 14, 0 ≤ d) →
      calculate_rsi prices 14 = some 100) ∧
    (15 ≤ prices.length → List.Chain' (· < ·) prices →
      calculate_rsi prices 14 = some 100) := by
  have core : 15 ≤ prices.length → (∀ d ∈ takeLast (diffs prices) 14, 0 ≤ d) →
      calculate_rsi prices 14 = some 100 := by
    intro hlen hpos
    unfold calculate_rsi
    rw [if_neg (by omega)]
    have hzero :
        ((takeLast (diffs prices) 14).map (fun d => if d < 0 then -d else 0)).sum = 0 := by
      apply List.sum_eq_zero
      intro x hx
      obtain ⟨d, hd, rfl⟩ := List.mem_map.mp hx
      rw [if_neg (not_lt.mpr (hpos d hd))]
    dsimp only
    rw [hzero]
    norm_num
  refine ⟨?_, core, ?_⟩
  · intro hlen
    unfold calculate_rsi
    rw [if_pos (by omega)]
  · intro hlen hchain
    exact core hlen fun d hd => le_of_lt (diffs_pos prices hchain d (mem_takeLast hd))

/-- A strictly increasing 15-point close series. -/
def c9Up : List ℚ := [1, 2, 3, 4, 5, 6, 7, 8, 9, 10, 11, 12, 13, 14, 15]

/-- C9 witness: a 2-point series is undefined; the strictly increasing
15-point series scores exactly 100. -/
theorem rsi_min_history_witness :
    calculate_rsi [(1 : ℚ), 2] 14 = none ∧ calculate_rsi c9Up 14 = some 100 :=
  ⟨(rsi_min_history_and_no_loss_branch [(1 : ℚ), 2]).1 (by decide),
    (rsi_min_history_and_no_loss_branch c9Up).2.2 (by decide)
      (by norm_num [c9Up, List.chain'_cons, List.chain'_singleton])⟩

/-! ## Claim C7 -/

/-- C7: whenever `BeneishMScore.calculate` returns a result, (i) the
stored M-Score is the stated linear combination of the stored component
values (rounded to 2 places), (ii) the red flag is set exactly when the
unrounded combination exceeds −1.78, and (iii) each ratio component whose
raw value is undefined is replaced by the neutral 1.0 (SGI and TATA are
always computed directly, so only the six ratio-of-ratio components have a
default). -/
theorem beneish_neutral_defaults_and_linear_combination (d : FundamentalData)
    (r : MScoreResult) (h : beneishMScore d = .ok (some r)) :
    r.m_score = roundTo (-4.84 + 0.92 * r.dsri + 0.528 * r.gmi + 0.404 * r.aqi +
      0.892 * r.sgi + 0.115 * r.depi - 0.172 * r.sgai + 4.679 * r.tata -
      0.327 * r.lvgi) 2 ∧
    (r.is_red_flag = true ↔
      -1.78 < -4.84 + 0.92 * r.dsri + 0.528 * r.gmi + 0.404 * r.aqi +
        0.892 * r.sgi + 0.115 * r.depi - 0.172 * r.sgai + 4.679 * r.tata -
        0.327 * r.lvgi) ∧
    (dsriRaw d = none → r.dsri = 1) ∧
    (gmiRaw d = none → r.gmi = 1) ∧
    (aqiRaw d = none → r.aqi = 1) ∧
    (sgaiRaw d = none → r.sgai = 1) ∧
    (lvgiRaw d = none → r.lvgi = 1) ∧
    (∀ dr drp,
      depr_rate d.depreciation (pyOr d.property_plant_equipment 0) = .ok dr →
      depr_rate d.depreciation_prior (pyOr d.property_plant_equipment_prior 0) = .ok drp →
      safe_divide drp dr = none → r.depi = 1) := by
  unfold beneishMScore at h
  cases hrev : d.revenue with
  | none => rw [hrev] at h; cases d.revenue_prior <;> simp at h
  | some rev =>
    cases hrevp : d.revenue_prior with
    | none => rw [hrev, hrevp] at h; simp at h
    | some revp =>
      rw [hrev, hrevp] at h
      dsimp only at h
      by_cases hc : rev ≤ 0 ∨ revp ≤ 0
      · rw [if_pos hc] at h; simp at h
      · rw [if_neg hc] at h
        cases hdr : depr_rate d.depreciation (pyOr d.property_plant_equipment 0) with
        | error e => rw [hdr] at h; simp at h
        | ok dr0 =>
          cases hdrp : depr_rate d.depreciation_prior
              (pyOr d.property_plant_equipment_prior 0) with
          | error e => rw [hdr, hdrp] at h; simp at h
          | ok drp0 =>
            rw [hdr, hdrp] at h
            dsimp only at h
            injection h with h1
            injection h1 with h2
            subst h2
            refine ⟨rfl, ?_, ?_, ?_, ?_, ?_, ?_, ?_⟩
            · simp only [decide_eq_true_eq]
            · intro hraw; simp [hraw, pyOr]; norm_num
            · intro hraw; simp [hraw, pyOr]; norm_num
            · intro hraw; simp [hraw, pyOr]; norm_num
            · intro hraw; simp [hraw, pyOr]; norm_num
            · intro hraw; simp [hraw, pyOr]; norm_num
            · intro dr drp hdr' hdrp' hnone
              have e1 : dr0 = dr := Except.ok.inj hdr'
              have e2 : drp0 = drp := Except.ok.inj hdrp'
              subst e1
              subst e2
              simp [hnone, pyOr]
              norm_num

/-- A snapshot on which every ratio component's raw value is undefined
(receivables, margins, SG&A, PPE and debt data absent; negative prior
total assets degenerate the AQI and LVGI denominators), the revenue guard
passes, and the M-Score is defined. -/
def c7Snapshot : FundamentalData :=
  { revenue := some 100, revenue_prior := some 50,
    total_assets_prior := some (-1) }

/-- The M-Score result computed at `c7Snapshot`. -/
def c7Result : MScoreResult :=
  ((beneishMScore c7Snapshot).toOption.join).getD
    ⟨0, 0, 0, 0, 0, 0, 0, 0, 0, false⟩

lemma c7_eval : beneishMScore c7Snapshot = .ok (some c7Result) := rfl

/-- C7 witness: at `c7Snapshot` every ratio component's raw value is
undefined and is replaced by 1, and the stored M-Score is the stated
linear combination of the stored components. -/
theorem beneish_neutral_defaults_witness :
    beneishMScore c7Snapshot = .ok (some c7Result) ∧
    c7Result.m_score = roundTo (-4.84 + 0.92 * c7Result.dsri +
      0.528 * c7Result.gmi + 0.404 * c7Result.aqi + 0.892 * c7Result.sgi +
      0.115 * c7Result.depi - 0.172 * c7Result.sgai + 4.679 * c7Result.tata -
      0.327 * c7Result.lvgi) 2 ∧
    (c7Result.is_red_flag = true ↔
      -1.78 < -4.84 + 0.92 * c7Result.dsri + 0.528 * c7Result.gmi +
        0.404 * c7Result.aqi + 0.892 * c7Result.sgi + 0.115 * c7Result.depi -
        0.172 * c7Result.sgai + 4.679 * c7Result.tata - 0.327 * c7Result.lvgi) ∧
    c7Result.dsri = 1 ∧ c7Result.gmi = 1 ∧ c7Result.aqi = 1 ∧
    c7Result.sgai = 1 ∧ c7Result.lvgi = 1 ∧ c7Result.depi = 1 := by
  have H := beneish_neutral_defaults_and_linear_combination c7Snapshot c7Result c7_eval
  exact ⟨c7_eval, H.1, H.2.1, H.2.2.1 rfl, H.2.2.2.1 rfl, H.2.2.2.2.1 rfl,
    H.2.2.2.2.2.1 rfl,
    H.2.2.2.2.2.2.1 (by norm_num [lvgiRaw, safe_divide, pyOr, c7Snapshot]),
    H.2.2.2.2.2.2.2 none none rfl rfl rfl⟩

/-! ## Claim C3 -/

/-- A state with a completed run for date 5, one child pick, and one
`StockStrategy` (trade plan) dated 5. -/
def c3State : DBState :=
  { runs := [{ id := 1, run_date := 5, status := "completed" }]
    picks := [{ run_id := 1, ticker := "AAA" }]
    strategies := [{ ticker := "AAA", analysis_date := 5, timeframe := "swing" }] }

/-- C3 counterexample: forcing a re-run deletes the prior run and its
Picks, but the date's `StockStrategy` (TradePlan) rows survive the delete
phase untouched — refuting "deletes … both Picks and TradePlans before
creating a fresh running run". -/
theorem trigger_phase_keeps_strategies :
    (triggerPhase c3State 5 true 2).strategies =
      [{ ticker := "AAA", analysis_date := 5, timeframe := "swing" }] ∧
    (triggerPhase c3State 5 true 2).runs =
      [{ id := 2, run_date := 5, status := "running" }] ∧
    (triggerPhase c3State 5 true 2).picks = [] := by
  decide

/-- C3 amended: without `force`, an existing completed run for the date
makes the call a no-op; otherwise every run for the date is deleted
together with its Picks and exactly one fresh `running` run for the date
is created — while TradePlans (`StockStrategy` rows) are not deleted in
this phase (they are replaced per-ticker later, during strategy
generation). -/
theorem trigger_phase_amended (st : DBState) (today : ℕ) (force : Bool) (newId : ℕ) :
    (force = false → hasCompletedRun st today = true →
      triggerPhase st today force newId = st) ∧
    (force = true ∨ hasCompletedRun st today = false →
      (triggerPhase st today force newId).runs.filter
          (fun r => r.run_date == today) =
        [{ id := newId, run_date := today, status := "running" }] ∧
      (triggerPhase st today force newId).picks =
        st.picks.filter (fun p =>
          !((st.runs.filter (fun r => r.run_date == today)).map (·.id)).contains
            p.run_id) ∧
      (triggerPhase st today force newId).strategies = st.strategies) := by
  constructor
  · intro hf hc
    unfold triggerPhase
    rw [hf, hc]
    rfl
  · intro hcase
    unfold triggerPhase
    rw [if_neg (show ¬(!force && hasCompletedRun st today) = true by
      rcases hcase with h | h <;> simp [h])]
    dsimp only
    refine ⟨?_, rfl, rfl⟩
    rw [List.filter_append]
    have h1 : (st.runs.filter (fun r => r.run_date != today)).filter
        (fun r => r.run_date == today) = [] := by
      rw [List.filter_filter]
      apply List.filter_eq_nil_iff.mpr
      intro r _
      simp [Bool.and_comm]
    rw [h1]
    simp

/-- C3 amended, witnessed at `c3State` with `force = true`. -/
theorem trigger_phase_amended_witness :
    (triggerPhase c3State 5 true 2).runs.filter (fun r => r.run_date == 5) =
      [{ id := 2, run_date := 5, status := "running" }] ∧
    (triggerPhase c3State 5 true 2).picks =
      c3State.picks.filter (fun p =>
        !((c3State.runs.filter (fun r => r.run_date == 5)).map (·.id)).contains
          p.run_id) ∧
    (triggerPhase c3State 5 true 2).strategies = c3State.strategies :=
  (trigger_phase_amended c3State 5 true 2).2 (Or.inl rfl)

/-! ## Claim C2 -/

/-- A non-ETF result entry whose metrics pass the magic_formula,
deep_value and quality_value screens simultaneously. -/
def c2Entry : ResultEntry :=
  { company := { ticker := "AAA", sector := some "Technology",
                 market_cap := some 200000000 }
    metrics := [("acquirers_multiple", some 5), ("f_score", some 8),
                ("pe_ratio", some 10), ("roe", some 20)]
    is_etf := false }

lemma c2_eval : generate_daily_picks 1 PRESET_SCREENS [c2Entry] =
    [{ run_id := 1, ticker := "AAA", screen_name := "magic_formula",
       metrics := c2Entry.metrics, rank := 1 },
     { run_id := 1, ticker := "AAA", screen_name := "deep_value",
       metrics := c2Entry.metrics, rank := 1 },
     { run_id := 1, ticker := "AAA", screen_name := "quality_value",
       metrics := c2Entry.metrics, rank := 1 }] := by
  simp +decide [generate_daily_picks, PRESET_SCREENS, runOneScreen,
    screenCandidates, dailySortVal, apply_filters, mget, belowMin, pyOr, c2Entry,
    List.filter_cons, List.flatMap_cons, List.find?, List.mergeSort_singleton,
    List.take, List.enum, List.enumFrom]

/-- C2 counterexample: `_generate_daily_picks` has no cross-screen dedup —
a ticker passing several screens is stored as a Pick of each of them
within the same run. -/
theorem daily_picks_store_ticker_under_multiple_screens :
    (generate_daily_picks 1 PRESET_SCREENS [c2Entry]).map
        (fun p => (p.screen_name, p.ticker)) =
      [("magic_formula", "AAA"), ("deep_value", "AAA"), ("quality_value", "AAA")] ∧
    ¬ (∀ p ∈ generate_daily_picks 1 PRESET_SCREENS [c2Entry],
        ∀ q ∈ generate_daily_picks 1 PRESET_SCREENS [c2Entry],
          p.ticker = q.ticker → p.screen_name = q.screen_name) := by
  rw [c2_eval]
  decide

lemma cacheFold_nodup (companies : List CompanyRow) (req : ScreenerRequest) :
    ∀ (picks : List CachedPick) (seen : List String) (acc : List ScreenerResult),
      (acc.map (fun r => r.ticker)).Nodup →
      (∀ t ∈ acc.map (fun r => r.ticker), t ∈ seen) →
      ((picks.foldl (cacheStep companies req) (seen, acc)).2.map
        (fun r => r.ticker)).Nodup
  | [], seen, acc, hnd, _ => by simpa using hnd
  | p :: ps, seen, acc, hnd, hsub => by
    rw [List.foldl_cons]
    show ((ps.foldl (cacheStep companies req)
      (cacheStep companies req (seen, acc) p)).2.map (fun r => r.ticker)).Nodup
    unfold cacheStep
    dsimp only
    by_cases hmem : p.ticker ∈ seen
    · rw [if_pos hmem]
      exact cacheFold_nodup companies req ps seen acc hnd hsub
    · rw [if_neg hmem]
      cases hfind : companies.find? (fun c => c.ticker == p.ticker) with
      | none => exact cacheFold_nodup companies req ps seen acc hnd hsub
      | some company =>
        dsimp only
        by_cases h1 : sectorExcluded company.sector req.exclude_sectors
        · rw [if_pos h1]
          exact cacheFold_nodup companies req ps seen acc hnd hsub
        · rw [if_neg h1]
          by_cases h2 : belowMin company.market_cap req.min_market_cap
          · rw [if_pos h2]
            exact cacheFold_nodup companies req ps seen acc hnd hsub
          · rw [if_neg h2]
            by_cases h3 : aboveMax company.market_cap req.max_market_cap
            · rw [if_pos h3]
              exact cacheFold_nodup companies req ps seen acc hnd hsub
            · rw [if_neg h3]
              by_cases h4 : !apply_filters p.metrics req.filters
              · rw [if_pos h4]
                exact cacheFold_nodup companies req ps seen acc hnd hsub
              · rw [if_neg h4]
                have hct : company.ticker = p.ticker := by
                  have := List.find?_some hfind
                  exact eq_of_beq this
                apply cacheFold_nodup companies req ps (p.ticker :: seen)
                · rw [List.map_append, List.nodup_append]
                  refine ⟨hnd, by simp, ?_⟩
                  intro t ht htr
                  simp only [List.map_cons, List.map_nil, List.mem_singleton] at htr
                  subst htr
                  rw [hct] at ht
                  exact hmem (hsub _ ht)
                · intro t ht
                  rw [List.map_append] at ht
                  rcases List.mem_append.mp ht with h | h
                  · exact List.mem_cons_of_mem _ (hsub _ h)
                  · simp only [List.map_cons, List.map_nil, List.mem_singleton] at h
                    subst h
                    rw [hct]
                    exact List.mem_cons_self _ _

lemma sortResults_perm (sort_by sort_order : String) (l : List ScreenerResult) :
    (sortResults sort_by sort_order l).Perm l := by
  unfold sortResults
  split <;> exact List.mergeSort_perm _ _

lemma assignRanks_map_ticker (l : List ScreenerResult) :
    (assignRanks l).map (fun r => r.ticker) = l.map (fun r => r.ticker) := by
  unfold assignRanks
  rw [List.map_map]
  have hc : ((fun r : ScreenerResult => r.ticker) ∘ fun p : ℕ × ScreenerResult =>
      { p.2 with rank := p.1 + 1 }) = (fun r : ScreenerResult => r.ticker) ∘ Prod.snd :=
    rfl
  rw [hc, ← List.map_map, List.enum_map_snd]

/-- C2 amended: the cross-screen first-match-wins dedup lives in the cache
replay (`_run_screen_from_cache`), not in the stored Picks: every replayed
result list contains each ticker at most once. -/
theorem cache_replay_dedups (picks : List CachedPick) (companies : List CompanyRow)
    (req : ScreenerRequest) :
    ((run_screen_from_cache picks companies req).map (fun r => r.ticker)).Nodup := by
  unfold run_screen_from_cache
  have h0 : ((cacheCollect picks companies req).2.map (fun r => r.ticker)).Nodup :=
    cacheFold_nodup companies req picks [] [] (by simp) (by simp)
  have h2 : ((sortResults req.sort_by req.sort_order
      (cacheCollect picks companies req).2).map (fun r => r.ticker)).Nodup :=
    (((sortResults_perm req.sort_by req.sort_order _).symm).map _).nodup h0
  rw [List.map_take, assignRanks_map_ticker]
  exact (List.take_sublist _ _).nodup h2

/-! ## Claim C10 -/

lemma mem_of_mem_enum {α : Type} {l : List α} {i : ℕ} {a : α}
    (h : (i, a) ∈ l.enum) : a ∈ l := by
  have : a ∈ l.enum.map Prod.snd := List.mem_map.mpr ⟨(i, a), h, rfl⟩
  rwa [List.enum_map_snd] at this

lemma generate_daily_picks_source (runId : ℕ) (screens : List ScreenConfig)
    (results : List ResultEntry) :
    ∀ p ∈ generate_daily_picks runId screens results,
      ∃ e ∈ results, e.company.ticker = p.ticker ∧ e.is_etf = false := by
  intro p hp
  unfold generate_daily_picks at hp
  obtain ⟨cfg, _, hp⟩ := List.mem_flatMap.mp hp
  unfold runOneScreen at hp
  obtain ⟨⟨i, e⟩, hmem, rfl⟩ := List.mem_map.mp hp
  have he : e ∈ screenCandidates cfg results := by
    have h1 := mem_of_mem_enum hmem
    have h2 := (List.take_sublist _ _).subset h1
    by_cases hord : cfg.sort_order = "desc"
    · rw [if_pos hord] at h2
      exact List.mem_mergeSort.mp h2
    · rw [if_neg hord] at h2
      exact List.mem_mergeSort.mp h2
  obtain ⟨hres, hpred⟩ := List.mem_filter.mp he
  refine ⟨e, hres, rfl, ?_⟩
  simp only [Bool.and_eq_true, Bool.not_eq_true'] at hpred
  exact hpred.1.1.1

lemma mem_upsert {rs : List ResultEntry} {e x : ResultEntry}
    (h : x ∈ upsert rs e) : x = e ∨ x ∈ rs := by
  unfold upsert at h
  split at h
  · obtain ⟨r, hr, hx⟩ := List.mem_map.mp h
    by_cases hc : (r.company.ticker == e.company.ticker) = true
    · rw [if_pos hc] at hx
      exact Or.inl hx.symm
    · rw [if_neg hc] at hx
      exact Or.inr (hx ▸ hr)
  · rcases List.mem_append.mp h with h | h
    · exact Or.inr h
    · exact Or.inl (List.mem_singleton.mp h)

lemma fetch_fold (quoteOf : String → Option Quote)
    (fundOf : String → Option FundamentalData) (Q : ResultEntry → Prop) :
    ∀ (cs : List CompanyRow) (acc : List ResultEntry),
      (∀ e ∈ acc, Q e) →
      (∀ c ∈ cs, ∀ e, process_one quoteOf fundOf c = some e → Q e) →
      ∀ e ∈ cs.foldl
        (fun a c =>
          match process_one quoteOf fundOf c with
          | some e' => upsert a e'
          | none => a) acc, Q e
  | [], acc, hacc, _, e, he => hacc e he
  | c :: cs, acc, hacc, hcs, e, he => by
    rw [List.foldl_cons] at he
    cases hpo : process_one quoteOf fundOf c with
    | none =>
      rw [hpo] at he
      exact fetch_fold quoteOf fundOf Q cs acc hacc
        (fun c' hc' => hcs c' (List.mem_cons_of_mem _ hc')) e he
    | some e' =>
      rw [hpo] at he
      refine fetch_fold quoteOf fundOf Q cs (upsert acc e') ?_
        (fun c' hc' => hcs c' (List.mem_cons_of_mem _ hc')) e he
      intro x hx
      rcases mem_upsert hx with h | h
      · exact h ▸ hcs c (List.mem_cons_self _ _) e' hpo
      · exact hacc x h

lemma process_one_shape (quoteOf : String → Option Quote)
    (fundOf : String → Option FundamentalData) (c : CompanyRow) (e : ResultEntry)
    (h : process_one quoteOf fundOf c = some e) :
    e.company = c ∧ e.is_etf = c.is_etf := by
  unfold process_one at h
  by_cases hetf : c.is_etf = true
  · rw [if_pos hetf] at h
    cases hq : quoteOf c.ticker with
    | none => rw [hq] at h; simp at h
    | some q =>
      rw [hq] at h
      injection h with h'
      subst h'
      exact ⟨rfl, hetf.symm⟩
  · rw [if_neg hetf] at h
    cases hf : fundOf c.ticker with
    | none => rw [hf] at h; simp at h
    | some dat =>
      rw [hf] at h
      dsimp only at h
      cases hca : calculate_all dat with
      | error msg => rw [hca] at h; simp at h
      | ok formulas =>
        rw [hca] at h
        dsimp only at h
        injection h with h'
        subst h'
        refine ⟨rfl, ?_⟩
        have : c.is_etf = false := by simpa using hetf
        rw [this]

/-- C10: a Pick generated from the fetch-and-score results can only carry
the ticker of a non-ETF company: `_fetch_and_calculate_all` tags ETF
results with `is_etf` and every screen's candidate loop skips entries so
tagged, so an ETF company's ticker never appears in any screen's Picks. -/
theorem etf_results_never_picked (quoteOf : String → Option Quote)
    (fundOf : String → Option FundamentalData) (companies : List CompanyRow)
    (runId : ℕ) (p : DailyPickRow)
    (hp : p ∈ generate_daily_picks runId PRESET_SCREENS
      (fetch_and_calculate_all quoteOf fundOf companies)) :
    ∃ c ∈ companies, c.ticker = p.ticker ∧ c.is_etf = false := by
  obtain ⟨e, he, hticker, hetf⟩ :=
    generate_daily_picks_source runId PRESET_SCREENS _ p hp
  have hQ : ∃ c ∈ companies, process_one quoteOf fundOf c = some e := by
    unfold fetch_and_calculate_all at he
    refine fetch_fold quoteOf fundOf
      (fun x => ∃ c ∈ companies, process_one quoteOf fundOf c = some x)
      companies [] ?_ ?_ e he
    · intro x hx
      exact absurd hx (List.not_mem_nil x)
    · intro c hc e' h
      exact ⟨c, hc, h⟩
  obtain ⟨c, hc, hpo⟩ := hQ
  obtain ⟨hcomp, hisetf⟩ := process_one_shape quoteOf fundOf c e hpo
  refine ⟨c, hc, ?_, ?_⟩
  · rw [← hticker, hcomp]
  · rw [← hisetf, hetf]

/-- One ETF and one ordinary company. -/
def c10Companies : List CompanyRow :=
  [{ ticker := "EEE", is_etf := true },
   { ticker := "BBB", sector := some "Technology", market_cap := some 100000000 }]

def c10QuoteOf : String → Option Quote := fun _ => some {}

def c10FundOf : String → Option FundamentalData := fun _ => some {}

def c10Pick : DailyPickRow :=
  { run_id := 1, ticker := "BBB", screen_name := "magic_formula",
    metrics := [("f_score", some 0), ("earnings_yield", none),
                ("return_on_capital", none)],
    rank := 1 }

lemma c10_picks_eval :
    generate_daily_picks 1 PRESET_SCREENS
      (fetch_and_calculate_all c10QuoteOf c10FundOf c10Companies) = [c10Pick] := by
  simp +decide [generate_daily_picks, PRESET_SCREENS, runOneScreen,
    screenCandidates, dailySortVal, apply_filters, mget, belowMin, pyOr,
    List.filter_cons, List.flatMap_cons, List.find?, List.mergeSort_singleton,
    List.take, List.enum, List.enumFrom, fetch_and_calculate_all, process_one,
    upsert, calculate_all, calculate_earnings_yield, calculate_return_on_capital,
    acquirers_multiple, piotroskiFScore, fs_roa_positive, fs_cfo_positive,
    fs_roa_improving, fs_accruals_quality, fs_leverage_decreasing,
    fs_liquidity_improving, fs_no_dilution, fs_gross_margin_improving,
    fs_asset_turnover_improving, altmanZScore, beneishMScore, sloanAccrualRatio,
    calculate_valuation_ratios, truthyNum, flatten_metrics, safe_divide,
    c10Companies, c10QuoteOf, c10FundOf, c10Pick]

/-- C10 witness: with one ETF and one ordinary company, the generated pick
list is exactly one Pick for the ordinary company, and the theorem traces
it back to a non-ETF company row. -/
theorem etf_results_never_picked_witness :
    ∃ c ∈ c10Companies, c.ticker = c10Pick.ticker ∧ c.is_etf = false :=
  etf_results_never_picked c10QuoteOf c10FundOf c10Companies 1 c10Pick
    (by rw [c10_picks_eval]; exact List.mem_singleton.mpr rfl)

/-! ## Claim C8 -/

/-- C8: for a swing plan built where RSI and a non-zero ATR are defined
and support/resistance levels, when present, are non-zero (price levels,
so Python truthiness = presence): the stop is the nearest support, else
`price − 2·ATR`; the risk is `price − stop` floored to 5% of price (stop
re-anchored) when non-positive; the target is the nearest resistance, else
`price + 2·risk`; and the confidence tier comes from the points
RSI<30 (+2) / RSI<45 (+1), MACD bullish (+1), price>SMA50 (+1), with
≥3 high, ≥2 medium, else low. -/
theorem swing_strategy_fields (price rv av : ℚ) (closes highs lows : List ℚ)
    (hrsi : calculate_rsi closes 14 = some rv)
    (hatr : calculate_atr highs lows closes 14 = some av)
    (hav : av ≠ 0)
    (hsup : ∀ s, (find_support_resistance closes 20).bind SRLevels.support = some s →
      s ≠ 0)
    (hres : ∀ t, (find_support_resistance closes 20).bind SRLevels.resistance = some t →
      t ≠ 0) :
    (buildSwingStrategy price closes highs lows).stop_loss =
      roundTo (if price -
          (match (find_support_resistance closes 20).bind SRLevels.support with
           | some s => s
           | none => price - 2 * av) ≤ 0
        then price - price * 0.05
        else match (find_support_resistance closes 20).bind SRLevels.support with
          | some s => s
          | none => price - 2 * av) 4 ∧
    (buildSwingStrategy price closes highs lows).take_profit =
      roundTo (match (find_support_resistance closes 20).bind SRLevels.resistance with
        | some t => t
        | none => price + 2 * (if price -
            (match (find_support_resistance closes 20).bind SRLevels.support with
             | some s => s
             | none => price - 2 * av) ≤ 0
          then price * 0.05
          else price -
            (match (find_support_resistance closes 20).bind SRLevels.support with
             | some s => s
             | none => price - 2 * av))) 4 ∧
    (buildSwingStrategy price closes highs lows).confidence =
      (if 3 ≤ (if rv < 30 then 2 else if rv < 45 then 1 else 0) +
          (match calculate_macd closes with
           | some m => if m.bullish = true then 1 else 0
           | none => 0) +
          (match calculate_sma closes 50 with
           | some s => if s < price then 1 else 0
           | none => 0)
        then "high"
        else if 2 ≤ (if rv < 30 then 2 else if rv < 45 then 1 else 0) +
            (match calculate_macd closes with
             | some m => if m.bullish = true then 1 else 0
             | none => 0) +
            (match calculate_sma closes 50 with
             | some s => if s < price then 1 else 0
             | none => 0)
          then "medium" else "low") := by
  unfold buildSwingStrategy
  rw [hrsi, hatr]
  have hbs : ∀ (x : Option SRLevels),
      (match x with | some lv => lv.support | none => none) =
        x.bind SRLevels.support := by
    intro x; cases x <;> rfl
  have hbr : ∀ (x : Option SRLevels),
      (match x with | some lv => lv.resistance | none => none) =
        x.bind SRLevels.resistance := by
    intro x; cases x <;> rfl
  dsimp only
  rw [hbs, hbr]
  have hatr_truthy : truthyNum (some av) = true := by simp [truthyNum, hav]
  have hnone_falsy : ¬truthyNum (none : Option ℚ) = true := by simp [truthyNum]
  cases hs : (find_support_resistance closes 20).bind SRLevels.support with
  | some s =>
    have hs0 : truthyNum (some s) = true := by simp [truthyNum, hsup s hs]
    simp only [if_pos hs0, Option.getD_some]
    cases ht : (find_support_resistance closes 20).bind SRLevels.resistance with
    | some t =>
      have ht0 : truthyNum (some t) = true := by simp [truthyNum, hres t ht]
      simp only [if_pos ht0, Option.getD_some]
      refine ⟨?_, ?_, ?_⟩ <;> first | rfl | trivial | (congr 1; ring)
    | none =>
      simp only [if_neg hnone_falsy]
      refine ⟨?_, ?_, ?_⟩ <;> first | rfl | trivial | (congr 1; ring)
  | none =>
    simp only [if_neg hnone_falsy, if_pos hatr_truthy, Option.getD_some]
    rw [show price - 2 * av = price - av * 2 from by ring]
    cases ht : (find_support_resistance closes 20).bind SRLevels.resistance with
    | some t =>
      have ht0 : truthyNum (some t) = true := by simp [truthyNum, hres t ht]
      simp only [if_pos ht0, Option.getD_some]
      refine ⟨?_, ?_, ?_⟩ <;> first | rfl | trivial | (congr 1; ring)
    | none =>
      simp only [if_neg hnone_falsy]
      refine ⟨?_, ?_, ?_⟩ <;> first | rfl | trivial | (congr 1; ring)

def c8Closes : List ℚ := [1, 2, 3, 4, 5, 6, 7, 8, 9, 10, 11, 12, 13, 14, 15]

def c8Highs : List ℚ := [2, 3, 4, 5, 6, 7, 8, 9, 10, 11, 12, 13, 14, 15, 16]

def c8Lows : List ℚ := [0, 1, 2, 3, 4, 5, 6, 7, 8, 9, 10, 11, 12, 13, 14]

lemma c8_rsi : calculate_rsi c8Closes 14 = some 100 := by
  norm_num [calculate_rsi, c8Closes, diffs, takeLast]

lemma c8_sr : find_support_resistance c8Closes 20 = none := by
  norm_num [find_support_resistance, c8Closes]

lemma c8_atr : calculate_atr c8Highs c8Lows c8Closes 14 = some 2 := by
  norm_num [calculate_atr, c8Closes, c8Highs, c8Lows, takeLast, List.range',
    roundTo, rhe]

/-- C8, witnessed on a strictly increasing 15-bar series at price 16
(RSI 100, ATR 2, no support/resistance levels). -/
theorem swing_strategy_fields_witness :
    (buildSwingStrategy 16 c8Closes c8Highs c8Lows).stop_loss =
      roundTo (if (16 : ℚ) -
          (match (find_support_resistance c8Closes 20).bind SRLevels.support with
           | some s => s
           | none => 16 - 2 * 2) ≤ 0
        then 16 - 16 * 0.05
        else match (find_support_resistance c8Closes 20).bind SRLevels.support with
          | some s => s
          | none => 16 - 2 * 2) 4 ∧
    (buildSwingStrategy 16 c8Closes c8Highs c8Lows).take_profit =
      roundTo (match (find_support_resistance c8Closes 20).bind SRLevels.resistance with
        | some t => t
        | none => 16 + 2 * (if (16 : ℚ) -
            (match (find_support_resistance c8Closes 20).bind SRLevels.support with
             | some s => s
             | none => 16 - 2 * 2) ≤ 0
          then 16 * 0.05
          else 16 -
            (match (find_support_resistance c8Closes 20).bind SRLevels.support with
             | some s => s
             | none => 16 - 2 * 2))) 4 ∧
    (buildSwingStrategy 16 c8Closes c8Highs c8Lows).confidence =
      (if 3 ≤ (if (100 : ℚ) < 30 then 2 else if (100 : ℚ) < 45 then 1 else 0) +
          (match calculate_macd c8Closes with
           | some m => if m.bullish = true then 1 else 0
           | none => 0) +
          (match calculate_sma c8Closes 50 with
           | some s => if s < 16 then 1 else 0
           | none => 0)
        then "high"
        else if 2 ≤ (if (100 : ℚ) < 30 then 2 else if (100 : ℚ) < 45 then 1 else 0) +
            (match calculate_macd c8Closes with
             | some m => if m.bullish = true then 1 else 0
             | none => 0) +
            (match calculate_sma c8Closes 50 with
             | some s => if s < 16 then 1 else 0
             | none => 0)
          then "medium" else "low") :=
  swing_strategy_fields 16 100 2 c8Closes c8Highs c8Lows c8_rsi c8_atr
    (by norm_num)
    (fun s h => by rw [c8_sr] at h; simp at h)
    (fun t h => by rw [c8_sr] at h; simp at h)

/-! ## Claim C1 -/

lemma pyOr_some_zero (v : ℚ) : pyOr (some v) 0 = v := by
  by_cases h : v = 0 <;> simp [pyOr, h]

lemma not_decide_lt (a b : ℚ) : (!decide (a < b)) = decide (b ≤ a) := by
  by_cases h : a < b
  · simp [h, not_le.mpr h]
  · simp [h, not_lt.mp h]

lemma find_self :
    ∀ (cands : List CompanyRow), (cands.map (fun c => c.ticker)).Nodup →
      ∀ c ∈ cands, cands.find? (fun x => x.ticker == c.ticker) = some c
  | [], _, c, hc => absurd hc (List.not_mem_nil c)
  | a :: l, hnd, c, hc => by
    rcases List.mem_cons.mp hc with h | h
    · subst h
      exact List.find?_cons_of_pos l (by simp)
    · have hne : ¬(a.ticker == c.ticker) = true := by
        rw [List.map_cons, List.nodup_cons] at hnd
        intro hbeq
        exact hnd.1 ((eq_of_beq hbeq) ▸ List.mem_map.mpr ⟨c, h, rfl⟩)
      rw [List.find?_cons_of_neg l hne]
      exact find_self l (by rw [List.map_cons, List.nodup_cons] at hnd; exact hnd.2) c h

lemma sector_keep_eq (excl : List String) (s : String) :
    (!sectorExcluded (some s) excl) = sqlSectorKeep excl (some s) := by
  unfold sectorExcluded sqlSectorKeep
  cases hE : excl.isEmpty <;> simp [hE]

lemma min_keep_eq (minC : Option ℚ) (v : ℚ) :
    (!belowMin (some v) minC) = sqlMinKeep minC (some v) := by
  unfold belowMin sqlMinKeep
  cases minC with
  | none => rfl
  | some m =>
    dsimp only
    rw [pyOr_some_zero]
    by_cases h : m = 0
    · simp [h]
    · simp only [if_neg h]
      exact not_decide_lt v m

lemma max_keep_eq (maxC : Option ℚ) (v : ℚ) :
    (!aboveMax (some v) maxC) = sqlMaxKeep maxC (some v) := by
  unfold aboveMax sqlMaxKeep
  cases maxC with
  | none => rfl
  | some m =>
    dsimp only
    rw [pyOr_some_zero]
    by_cases h : m = 0
    · simp [h]
    · simp only [if_neg h]
      exact not_decide_lt m v

lemma keep_eq (req : ScreenerRequest) (c : CompanyRow)
    (hs : c.sector.isSome = true) (hm : c.market_cap.isSome = true) :
    (!sectorExcluded c.sector req.exclude_sectors &&
      !belowMin c.market_cap req.min_market_cap &&
      !aboveMax c.market_cap req.max_market_cap) = sqlKeep req c := by
  obtain ⟨s, hs⟩ := Option.isSome_iff_exists.mp hs
  obtain ⟨v, hv⟩ := Option.isSome_iff_exists.mp hm
  unfold sqlKeep
  rw [hs, hv, sector_keep_eq, min_keep_eq, max_keep_eq]

/-- The stored pick corresponding to a candidate company under identical
inputs: same ticker, and the金 metrics the live path would compute
(`pick.metrics or {}`). -/
def pickOf (metricsOf : String → Option Metrics) (c : CompanyRow) : CachedPick :=
  { ticker := c.ticker, metrics := (metricsOf c.ticker).getD [] }

/-- The per-candidate outcome both paths compute on a deduplicated,
fully-populated candidate. -/
def cacheRowFn (req : ScreenerRequest) (metricsOf : String → Option Metrics)
    (c : CompanyRow) : Option ScreenerResult :=
  if (!sectorExcluded c.sector req.exclude_sectors &&
      !belowMin c.market_cap req.min_market_cap &&
      !aboveMax c.market_cap req.max_market_cap &&
      apply_filters ((metricsOf c.ticker).getD []) req.filters) = true
  then some { ticker := c.ticker, name := c.name, sector := c.sector,
              market_cap := c.market_cap,
              metrics := (metricsOf c.ticker).getD [], rank := 0 }
  else none

lemma cacheCollect_spec (req : ScreenerRequest) (metricsOf : String → Option Metrics)
    (cands0 : List CompanyRow) :
    ∀ (cs : List CompanyRow) (seen : List String) (acc : List ScreenerResult),
      (∀ c ∈ cs, c.ticker ∉ seen) →
      (cs.map (fun c => c.ticker)).Nodup →
      (∀ c ∈ cs, cands0.find? (fun x => x.ticker == c.ticker) = some c) →
      ((cs.map (pickOf metricsOf)).foldl (cacheStep cands0 req) (seen, acc)).2
        = acc ++ cs.filterMap (cacheRowFn req metricsOf)
  | [], seen, acc, _, _, _ => by simp
  | c :: cs, seen, acc, hseen, hnd, hfind => by
    rw [List.map_cons, List.foldl_cons]
    have hstep : cacheStep cands0 req (seen, acc) (pickOf metricsOf c) =
        (match cacheRowFn req metricsOf c with
         | some r => (c.ticker :: seen, acc ++ [r])
         | none => (seen, acc)) := by
      unfold cacheStep pickOf cacheRowFn
      dsimp only
      rw [if_neg (hseen c (List.mem_cons_self c cs)),
        hfind c (List.mem_cons_self c cs)]
      dsimp only
      by_cases h1 : sectorExcluded c.sector req.exclude_sectors = true <;>
        by_cases h2 : belowMin c.market_cap req.min_market_cap = true <;>
        by_cases h3 : aboveMax c.market_cap req.max_market_cap = true <;>
        by_cases h4 : apply_filters ((metricsOf c.ticker).getD []) req.filters = true <;>
        simp [h1, h2, h3, h4]
    rw [hstep]
    have hnd' : (cs.map (fun c => c.ticker)).Nodup := by
      rw [List.map_cons, List.nodup_cons] at hnd
      exact hnd.2
    have hfind' : ∀ x ∈ cs, cands0.find? (fun y => y.ticker == x.ticker) = some x :=
      fun x hx => hfind x (List.mem_cons_of_mem _ hx)
    cases hrow : cacheRowFn req metricsOf c with
    | none =>
      dsimp only
      rw [cacheCollect_spec req metricsOf cands0 cs seen acc
        (fun x hx => hseen x (List.mem_cons_of_mem _ hx)) hnd' hfind']
      simp [List.filterMap_cons, hrow]
    | some r =>
      dsimp only
      have hseen' : ∀ x ∈ cs, x.ticker ∉ c.ticker :: seen := by
        intro x hx
        rw [List.mem_cons]
        rintro (h | h)
        · rw [List.map_cons, List.nodup_cons] at hnd
          exact hnd.1 (h ▸ List.mem_map.mpr ⟨x, hx, rfl⟩)
        · exact hseen x (List.mem_cons_of_mem _ hx) h
      rw [cacheCollect_spec req metricsOf cands0 cs (c.ticker :: seen) (acc ++ [r])
        hseen' hnd' hfind']
      simp [List.filterMap_cons, hrow, List.append_assoc]

/-- C1 amended: the cache replay and the live computation are
rank-equivalent on identical inputs, provided the candidate set has at
most 50 companies (the live path truncates at 50), candidates have
pairwise distinct tickers (the replay dedups, the live path does not),
every candidate has a non-null sector and market cap (the live path's SQL
filters drop NULL rows, the replay treats them as absent/0), and every
candidate's metrics computation succeeds. -/
theorem screener_paths_rank_equivalent (cands : List CompanyRow)
    (metricsOf : String → Option Metrics) (req : ScreenerRequest)
    (hlen : cands.length ≤ 50)
    (hnodup : (cands.map (fun c => c.ticker)).Nodup)
    (hsec : ∀ c ∈ cands, c.sector.isSome = true)
    (hcap : ∀ c ∈ cands, c.market_cap.isSome = true)
    (hmet : ∀ c ∈ cands, (metricsOf c.ticker).isSome = true) :
    run_screen_from_cache (cands.map (pickOf metricsOf)) cands req =
      run_screen_live cands metricsOf req := by
  unfold run_screen_from_cache run_screen_live cacheCollect
  dsimp only
  have hcc := cacheCollect_spec req metricsOf cands cands [] []
    (fun c _ => List.not_mem_nil c.ticker) hnodup (find_self cands hnodup)
  rw [hcc, List.nil_append]
  have hfl : (cands.filter (sqlKeep req)).length ≤ 50 :=
    le_trans (List.length_filter_le _ _) hlen
  rw [List.take_of_length_le (le_trans hfl (by norm_num)),
    List.take_of_length_le hfl, List.filterMap_filter]
  have hpt : ∀ c ∈ cands,
      cacheRowFn req metricsOf c =
        (if sqlKeep req c = true then
          match metricsOf c.ticker with
          | none => none
          | some m =>
            if apply_filters m req.filters = true then
              some { ticker := c.ticker, name := c.name, sector := c.sector,
                     market_cap := c.market_cap, metrics := m, rank := 0 }
            else none
        else none) := by
    intro c hc
    obtain ⟨m, hm⟩ := Option.isSome_iff_exists.mp (hmet c hc)
    rw [hm]
    unfold cacheRowFn
    rw [← keep_eq req c (hsec c hc) (hcap c hc), hm]
    by_cases hk : (!sectorExcluded c.sector req.exclude_sectors &&
        !belowMin c.market_cap req.min_market_cap &&
        !aboveMax c.market_cap req.max_market_cap) = true <;>
      by_cases hf : apply_filters ((some m).getD []) req.filters = true <;>
      simp [hk, hf] <;> simp_all
  rw [List.filterMap_congr hpt]

/-- C1 witness fixture: one fully-populated candidate. -/
def c1Cands : List CompanyRow :=
  [{ ticker := "W", sector := some "Technology", market_cap := some 5 }]

def c1MetricsOf : String → Option Metrics := fun _ => some [("x", some 1)]

def c1Req : ScreenerRequest :=
  { filters := [], sort_by := "x", sort_order := "desc", limit := 10,
    exclude_sectors := [], min_market_cap := none, max_market_cap := none }

/-- C1 amended, witnessed at a singleton candidate set. -/
theorem screener_paths_rank_equivalent_witness :
    run_screen_from_cache (c1Cands.map (pickOf c1MetricsOf)) c1Cands c1Req =
      run_screen_live c1Cands c1MetricsOf c1Req :=
  screener_paths_rank_equivalent c1Cands c1MetricsOf c1Req (by decide) (by decide)
    (by decide) (by decide) (by decide)

def cxMets : String → Option Metrics := fun _ => some []

/-- A company with a NULL market cap. -/
def cxNullCap : CompanyRow := { ticker := "N" }

def cxReqMax : ScreenerRequest :=
  { filters := [], sort_by := "x", sort_order := "desc", limit := 10,
    exclude_sectors := [], min_market_cap := none, max_market_cap := some 10 }

/-- A company with a NULL sector. -/
def cxNoSector : CompanyRow := { ticker := "S", market_cap := some 5 }

def cxReqSec : ScreenerRequest :=
  { filters := [], sort_by := "x", sort_order := "desc", limit := 10,
    exclude_sectors := ["X"], min_market_cap := none, max_market_cap := none }

/-- A plain company appearing twice under the same ticker. -/
def cxDup : CompanyRow :=
  { ticker := "D", sector := some "T", market_cap := some 5 }

def cxReqPlain : ScreenerRequest :=
  { filters := [], sort_by := "x", sort_order := "desc", limit := 10,
    exclude_sectors := [], min_market_cap := none, max_market_cap := none }

/-- 51 candidates; only the 51st ("Z") carries the metric the filter
needs. -/
def cx51Cands : List CompanyRow :=
  ["A0", "A1", "A2", "A3", "A4", "A5", "A6", "A7", "A8", "A9", "A10", "A11",
   "A12", "A13", "A14", "A15", "A16", "A17", "A18", "A19", "A20", "A21", "A22",
   "A23", "A24", "A25", "A26", "A27", "A28", "A29", "A30", "A31", "A32", "A33",
   "A34", "A35", "A36", "A37", "A38", "A39", "A40", "A41", "A42", "A43", "A44",
   "A45", "A46", "A47", "A48", "A49", "Z"].map (fun t => { ticker := t })

def cx51Mets : String → Option Metrics :=
  fun t => if t = "Z" then some [("x", some 1)] else some []

def cxReq51 : ScreenerRequest :=
  { filters := [{ metric := "x", operator := ">", value := 0 }], sort_by := "x",
    sort_order := "desc", limit := 10, exclude_sectors := [],
    min_market_cap := none, max_market_cap := none }

/-- C1 counterexample: the two execution paths disagree on identical
inputs in four ways — (i) a NULL market cap passes the replay's max-cap
check (`or 0`) but is dropped by the live SQL filter; (ii) a NULL sector
passes the replay's exclusion check but is dropped by the live SQL filter;
(iii) the live path only ever examines the first 50 candidates; (iv) the
replay dedups a repeated ticker, the live path does not. -/
theorem screener_paths_diverge :
    ((run_screen_from_cache [pickOf cxMets cxNullCap] [cxNullCap] cxReqMax).map
        (fun r => r.ticker) = ["N"] ∧
      (run_screen_live [cxNullCap] cxMets cxReqMax).map (fun r => r.ticker) = []) ∧
    ((run_screen_from_cache [pickOf cxMets cxNoSector] [cxNoSector] cxReqSec).map
        (fun r => r.ticker) = ["S"] ∧
      (run_screen_live [cxNoSector] cxMets cxReqSec).map (fun r => r.ticker) = []) ∧
    ((run_screen_from_cache (cx51Cands.map (pickOf cx51Mets)) cx51Cands cxReq51).map
        (fun r => r.ticker) = ["Z"] ∧
      (run_screen_live cx51Cands cx51Mets cxReq51).map (fun r => r.ticker) = []) ∧
    ((run_screen_from_cache [pickOf cxMets cxDup, pickOf cxMets cxDup]
        [cxDup, cxDup] cxReqPlain).map (fun r => r.ticker) = ["D"] ∧
      (run_screen_live [cxDup, cxDup] cxMets cxReqPlain).length = 2) := by
  refine ⟨⟨?_, ?_⟩, ⟨?_, ?_⟩, ⟨?_, ?_⟩, ⟨?_, ?_⟩⟩
  · simp +decide [run_screen_from_cache, cacheCollect, cacheStep, sectorExcluded,
      belowMin, aboveMax, apply_filters, mget, pyOr, pickOf, cxMets, cxNullCap,
      cxReqMax, sortResults, assignRanks, List.mergeSort_singleton, List.enum]
  · simp +decide [run_screen_live, sqlKeep, sqlSectorKeep, sqlMinKeep, sqlMaxKeep,
      apply_filters, mget, cxMets, cxNullCap, cxReqMax, sortResults, assignRanks,
      List.mergeSort_nil, List.enum]
  · simp +decide [run_screen_from_cache, cacheCollect, cacheStep, sectorExcluded,
      belowMin, aboveMax, apply_filters, mget, pyOr, pickOf, cxMets, cxNoSector,
      cxReqSec, sortResults, assignRanks, List.mergeSort_singleton, List.enum]
  · simp +decide [run_screen_live, sqlKeep, sqlSectorKeep, sqlMinKeep, sqlMaxKeep,
      apply_filters, mget, cxMets, cxNoSector, cxReqSec, sortResults, assignRanks,
      List.mergeSort_nil, List.enum]
  · simp +decide [run_screen_from_cache, cacheCollect, cacheStep, sectorExcluded,
      belowMin, aboveMax, apply_filters, mget, pyOr, pickOf, cx51Mets, cx51Cands,
      cxReq51, sortResults, assignRanks, List.mergeSort_singleton, List.enum,
      List.find?]
  · simp +decide [run_screen_live, sqlKeep, sqlSectorKeep, sqlMinKeep, sqlMaxKeep,
      apply_filters, mget, cx51Mets, cx51Cands, cxReq51, sortResults, assignRanks,
      List.mergeSort_nil, List.enum, List.take]
  · simp +decide [run_screen_from_cache, cacheCollect, cacheStep, sectorExcluded,
      belowMin, aboveMax, apply_filters, mget, pyOr, pickOf, cxMets, cxDup,
      cxReqPlain, sortResults, assignRanks, List.mergeSort_singleton, List.enum]
  · have hlen_ar : ∀ (l : List ScreenerResult), (assignRanks l).length = l.length := by
      intro l
      simp [assignRanks, List.enum_length]
    have hlen_sr : ∀ o (l : List ScreenerResult),
        (sortResults "x" o l).length = l.length := by
      intro o l
      unfold sortResults
      split <;> simp [List.length_mergeSort]
    unfold run_screen_live
    simp +decide [sqlKeep, sqlSectorKeep, sqlMinKeep, sqlMaxKeep, cxDup, cxMets,
      cxReqPlain, apply_filters, List.take, List.length_take, hlen_ar, hlen_sr]

end QuantScreen
